import Mathlib

/-!
# OKEx perpetual-swap adapter (`okex/OKExSwap.go`)

A shallow embedding of the normalisation layer of the adapter, followed by
theorems about it.

Conventions of the embedding.

* A Go `error` is its message; the nil error is `none : Option Error`.
* A Go slice is a `List`; the nil slice and the empty slice are both `[]`.
* A Go pointer result (`*Depth`, `*FutureAccount`) is an `Option`; `nil` is `none`.
* `float64` values are only copied by the adapter, never computed with, so the
  embedding is generic in the carrier `F` of `float64`.
* A run-time panic (index out of range, explicit `panic`) is `Except.error`.
* The signed HTTP transport and `encoding/json` are collaborators outside the
  repository: an `Exchange` answers each request with a `Reply`.
-/

namespace OKExSwap

/-! ## Go values shared by the operations -/

/-- A Go `error` value, identified by its message. -/
abbrev Error := String

/-- Go `time.Time`, as the instant it denotes: whole seconds elapsed since
January 1, year 1, 00:00:00 UTC, and the nanoseconds within that second. -/
structure Time where
  sec : Int
  nsec : Nat
deriving DecidableEq, Repr

/-- The zero value `time.Time{}`: January 1, year 1, 00:00:00 UTC. -/
def Time.zero : Time := ⟨0, 0⟩

/-- Seconds between January 1, year 1 and January 1, 1970 (`unixToInternal` of package `time`). -/
def unixToInternal : Int := 62135596800

/-- Conversion of a mathematical integer to `int64` (two's complement wrap-around). -/
def toInt64 (x : Int) : Int := (x + 2 ^ 63) % 2 ^ 64 - 2 ^ 63

/-- Conversion of an `int64` to `uint64`. -/
def toUint64 (x : Int) : Int := x % 2 ^ 64

/-- Go `Time.UnixNano`: `(t.unixSec())*1e9 + int64(t.nsec())` computed in `int64`. -/
def Time.UnixNano (t : Time) : Int := toInt64 ((t.sec - unixToInternal) * 1000000000 + t.nsec)

/-- Go `int64(time.Millisecond)`. -/
def Millisecond : Int := 1000000

/-- Go `time.Parse(time.RFC3339, value)` over the library parser `rfc3339`
(`none` when the text is rejected): every failing return of `time.Parse`
yields the zero `Time` together with the error. -/
def time_Parse (rfc3339 : String → Option Time) (value : String) : Time × Option Error :=
  match rfc3339 value with
  | some t => (t, none)
  | none => (Time.zero, some ("parsing time " ++ value))

/-- Modelled from the spec: the `Currency` type and the constants `BTC` ..
`UNKNOWN` are declared in the parent package, outside src/; a currency is
the "normalized currency symbol" of §3. -/
structure Currency where
  Symbol : String
deriving DecidableEq, Repr

/-- Modelled from the spec: `CurrencyPair` is declared in the parent package,
outside src/; a pair names two currencies. -/
structure CurrencyPair where
  CurrencyA : Currency
  CurrencyB : Currency
deriving DecidableEq, Repr

/-- Modelled from the spec: `TradeStatus` and its constants are declared in the
parent package, outside src/; §3 gives it as the enumeration over
{cancelled, unfinished, partially-filled, fully-filled}. -/
inductive TradeStatus where
  | ORDER_UNFINISH
  | ORDER_PART_FINISH
  | ORDER_FINISH
  | ORDER_CANCEL
deriving DecidableEq, Repr

open TradeStatus

/-! ## The signed-request layer (`doRequest`, lines 454-474) -/

/-- Rest endpoint. -/
def Endpoint : String := "https://www.okex.com"

def GET_ACCOUNTS : String := "/api/swap/v3/accounts"

def PLACE_ORDER : String := "/api/swap/v3/order"

/-- Go `fmt.Sprintf(CANCEL_ORDER, a, b)` with `CANCEL_ORDER = "/api/swap/v3/cancel_order/%s/%s"`. -/
def CANCEL_ORDER (a b : String) : String := "/api/swap/v3/cancel_order/" ++ a ++ "/" ++ b

/-- Go `fmt.Sprintf(GET_DEPTH, a, size)` with `GET_DEPTH = "/api/swap/v3/instruments/%s/depth?size=%d"`. -/
def GET_DEPTH (a : String) (size : Int) : String :=
  "/api/swap/v3/instruments/" ++ a ++ "/depth?size=" ++ toString size

/-- Go `fmt.Sprintf(GET_UNFINISHED_ORDERS, a, status, caret, limit)` with
`GET_UNFINISHED_ORDERS = "/api/swap/v3/orders/%s?status=%d&from=%d&limit=%d"`. -/
def GET_UNFINISHED_ORDERS (a : String) (status caret limit : Int) : String :=
  "/api/swap/v3/orders/" ++ a ++ "?status=" ++ toString status ++ "&from=" ++ toString caret
    ++ "&limit=" ++ toString limit

/-- What `doRequest` hands to `NewHttpRequest`: method, absolute url and body
(the headers carry the credentials, the signature and its timestamp). -/
structure Request where
  httpMethod : String
  url : String
  reqBody : String
deriving DecidableEq, Repr

/-- What comes back for one request whose response variable has type `α`.

* `transportError err`: `NewHttpRequest` returned `err`; `doRequest` returns it
  and the response variable is not touched.
* `unmarshalled value err`: `NewHttpRequest` returned a body and `doRequest`
  returns `json.Unmarshal(resp, &response)`; `value` is the caller's
  (zero-initialised) response variable after that call and `err` is what it
  returned. `json.Unmarshal` reports a value that does not fit its target
  field by skipping that field, completing the rest and returning the
  earliest such error, so `value` may carry data also when `err` is not nil. -/
inductive Reply (α : Type) where
  | transportError (err : Error)
  | unmarshalled (value : α) (err : Option Error)
deriving DecidableEq, Repr

/-- The exchange as seen through the transport, for responses decoded into `α`. -/
abbrev Exchange (α : Type) := Request → Reply α

/-- Go `doRequest` (lines 454-474): the response variable after the call, and the error returned. -/
def doRequest {α : Type} (exchange : Exchange α) (httpMethod uri reqBody : String)
    (response : α) : α × Option Error :=
  let url := Endpoint ++ uri
  match exchange ⟨httpMethod, url, reqBody⟩ with
  | .transportError err => (response, some err)
  | .unmarshalled value err => (value, err)

/-- Indexing `xs[i]` of a Go slice: a run-time panic when `i` is out of range. -/
def index {α : Type} (xs : List α) (i : Nat) : Except String α :=
  match xs[i]? with
  | some x => .ok x
  | none => .error "index out of range"

/-! ## Trade status (`AdaptTradeStatus`, lines 476-489) -/

/-- Go `AdaptTradeStatus` (lines 476-489). -/
def AdaptTradeStatus (status : Int) : TradeStatus :=
  if status = -1 then ORDER_CANCEL
  else if status = 0 then ORDER_UNFINISH
  else if status = 1 then ORDER_PART_FINISH
  else if status = 2 then ORDER_FINISH
  else ORDER_UNFINISH

/-! ## Depth (`GetFutureDepth`, lines 115-141) -/

/-- One level of the book (`DepthRecord` of the parent package). -/
structure DepthRecord (F : Type) where
  Price : F
  Amount : F
deriving DecidableEq, Repr

/-- The fields of `Depth` (parent package) that `GetFutureDepth` assigns. -/
structure Depth (F : Type) where
  ContractType : String
  Pair : CurrencyPair
  UTime : Time
  AskList : List (DepthRecord F)
  BidList : List (DepthRecord F)
deriving DecidableEq, Repr

/-- The fields of `SwapInstrumentDepth` that `GetFutureDepth` reads; a tuple is
a slice of raw JSON values of type `R`. -/
structure SwapInstrumentDepth (R : Type) where
  Asks : List (List R)
  Bids : List (List R)
  Timestamp : String
deriving DecidableEq, Repr

/-- The loop of lines 128-132, `for _, v := range resp.Bids`, from the bid list built so far. -/
def bidLoop {F R : Type} (ToFloat64 : R → F) :
    List (List R) → List (DepthRecord F) → Except String (List (DepthRecord F))
  | [], BidList => .ok BidList
  | v :: rest, BidList => do
      let price ← index v 0
      let amount ← index v 1
      bidLoop ToFloat64 rest (BidList ++ [{ Price := ToFloat64 price, Amount := ToFloat64 amount }])

/-- The loop of lines 134-138, `for i := len(resp.Asks) - 1; i >= 0; i--`.
The counter is `i + 1`: `0` is the exit (`i = -1`), `k + 1` runs the body at `i = k`. -/
def askLoop {F R : Type} (ToFloat64 : R → F) (Asks : List (List R)) :
    Nat → List (DepthRecord F) → Except String (List (DepthRecord F))
  | 0, AskList => .ok AskList
  | i + 1, AskList => do
      let row ← index Asks i
      let price ← index row 0
      let amount ← index row 1
      askLoop ToFloat64 Asks i (AskList ++ [{ Price := ToFloat64 price, Amount := ToFloat64 amount }])

/-- Go `GetFutureDepth` (lines 115-141). `ToFloat64` is the conversion helper of
the parent package and `rfc3339` the library's timestamp parser. -/
def GetFutureDepth {F R : Type} (exchange : Exchange (SwapInstrumentDepth R))
    (rfc3339 : String → Option Time) (ToFloat64 : R → F)
    (currencyPair : CurrencyPair) (contractType : String) (size : Int) :
    Except String (Option (Depth F) × Option Error) :=
  let (resp, err) := doRequest exchange "GET" (GET_DEPTH contractType size) ""
    ({ Asks := [], Bids := [], Timestamp := "" } : SwapInstrumentDepth R)
  match err with
  | some e => .ok (none, some e)
  | none => do
      let UTime := (time_Parse rfc3339 resp.Timestamp).1
      let BidList ← bidLoop ToFloat64 resp.Bids []
      let AskList ← askLoop ToFloat64 resp.Asks resp.Asks.length []
      .ok (some { ContractType := contractType, Pair := currencyPair, UTime := UTime,
                  AskList := AskList, BidList := BidList }, none)

/-! ## Orders (`parseOrder`, `GetUnfinishFutureOrders`, lines 255-306) -/

/-- The zero value of `CurrencyPair`. -/
def CurrencyPair.zero : CurrencyPair := ⟨⟨""⟩, ⟨""⟩⟩

/-- The fields of `BizWarmTips` that the adapter reads: the `{code, message}` envelope. -/
structure BizWarmTips where
  Code : Int
  Message : String
deriving DecidableEq, Repr

/-- The fields of `BaseOrderInfo` that `parseOrder` reads. -/
structure BaseOrderInfo (F : Type) where
  OrderId : String
  Size : F
  Price : F
  FilledQty : F
  PriceAvg : F
  Type_ : Int
  Status : Int
  Fee : F
  Timestamp : String
deriving DecidableEq, Repr

/-- Go `SwapOrdersInfo`: the embedded `BizWarmTips` and the order records. -/
structure SwapOrdersInfo (F : Type) extends BizWarmTips where
  OrderInfo : List (BaseOrderInfo F)
deriving DecidableEq, Repr

/-- The fields of `FutureOrder` (parent package) that the adapter assigns. -/
structure FutureOrder (F : Type) where
  OrderID2 : String
  Amount : F
  Price : F
  DealAmount : F
  AvgPrice : F
  OType : Int
  Status : TradeStatus
  Fee : F
  OrderTime : Int
  Currency : CurrencyPair
  ContractName : String
deriving DecidableEq, Repr

/-- Go `parseOrder` (lines 255-267); the division of `int64` values truncates toward zero. -/
def parseOrder {F : Type} (rfc3339 : String → Option Time) (ord : BaseOrderInfo F) :
    FutureOrder F :=
  let oTime := (time_Parse rfc3339 ord.Timestamp).1
  { OrderID2 := ord.OrderId
    Amount := ord.Size
    Price := ord.Price
    DealAmount := ord.FilledQty
    AvgPrice := ord.PriceAvg
    OType := ord.Type_
    Status := AdaptTradeStatus ord.Status
    Fee := ord.Fee
    OrderTime := Int.tdiv oTime.UnixNano Millisecond
    Currency := CurrencyPair.zero
    ContractName := "" }

/-- The loop of lines 285-290 (and again 297-302), `for _, info := range ...OrderInfo`,
from the order list built so far. -/
def orderLoop {F : Type} (rfc3339 : String → Option Time) (currencyPair : CurrencyPair)
    (contractType : String) : List (BaseOrderInfo F) → List (FutureOrder F) → List (FutureOrder F)
  | [], orders => orders
  | info :: rest, orders =>
      let ord := parseOrder rfc3339 info
      let ord := { ord with Currency := currencyPair }
      let ord := { ord with ContractName := contractType }
      orderLoop rfc3339 currencyPair contractType rest (orders ++ [ord])

/-- Go `GetUnfinishFutureOrders` (lines 269-306). `statusCode` gives the integer that
`%d` prints for a `TradeStatus` constant (the constants are declared outside
src/). After the second request a non-nil error is only logged (lines 293-295). -/
def GetUnfinishFutureOrders {F : Type} (exchange : Exchange (SwapOrdersInfo F))
    (rfc3339 : String → Option Time) (statusCode : TradeStatus → Int)
    (currencyPair : CurrencyPair) (contractType : String) :
    List (FutureOrder F) × Option Error :=
  let zero : SwapOrdersInfo F := { Code := 0, Message := "", OrderInfo := [] }
  let (resp, err) := doRequest exchange "GET"
    (GET_UNFINISHED_ORDERS contractType (statusCode ORDER_UNFINISH) 1 100) "" zero
  match err with
  | some e => ([], some e)
  | none =>
    if resp.Message ≠ "" then
      ([], some ("\x7b\"ErrCode\":" ++ toString resp.Code ++ ",\"ErrMessage\":\""
        ++ resp.Message ++ "\""))
    else
      let orders := orderLoop rfc3339 currencyPair contractType resp.OrderInfo []
      let (resp2, _) := doRequest exchange "GET"
        (GET_UNFINISHED_ORDERS contractType (statusCode ORDER_PART_FINISH) 1 100) "" zero
      let orders := orderLoop rfc3339 currencyPair contractType resp2.OrderInfo orders
      (orders, none)

/-! ## Placing and cancelling (`PlaceFutureOrder`, `FutureCancelOrder`, lines 191-253) -/

/-- Go `BaseResponse` (lines 80-84). -/
structure BaseResponse where
  ErrorCode : String
  ErrorMessage : String
  Result : Bool
deriving DecidableEq, Repr

/-- Go `PlaceOrderInfo` (lines 191-202), the embedded `BasePlaceOrderInfo` flattened. -/
structure PlaceOrderInfo where
  ClientOid : String
  Price : String
  MatchPrice : String
  Type_ : String
  Size : String
  InstrumentId : String
deriving DecidableEq, Repr

/-- The anonymous response struct of lines 216-220. -/
structure PlaceOrderResponse extends BaseResponse where
  OrderID : String
  ClientOid : String
deriving DecidableEq, Repr

/-- Go `strings.Replace(s, "-", "", n)` on the characters of `s`, for `n ≥ 0`:
the first `n` hyphens are removed. -/
def removeHyphens : Nat → List Char → List Char
  | 0, cs => cs
  | _ + 1, [] => []
  | n + 1, c :: cs => if c = '-' then removeHyphens n cs else c :: removeHyphens (n + 1) cs

/-- Go `PlaceFutureOrder` (lines 209-232). `uuid` is the text of `uuid.New().String()`
and `BuildRequestBody` the marshalling helper of the parent package (its first result). -/
def PlaceFutureOrder (exchange : Exchange PlaceOrderResponse)
    (BuildRequestBody : PlaceOrderInfo → String) (uuid : String)
    (_currencyPair : CurrencyPair) (contractType price amount : String)
    (openType _matchPrice _leverRate : Int) : String × Option Error :=
  let reqBody := BuildRequestBody
    { ClientOid := String.mk (removeHyphens 32 uuid.data), Price := price, MatchPrice := "0",
      Type_ := toString openType, Size := amount, InstrumentId := contractType }
  let zero : PlaceOrderResponse :=
    { ErrorCode := "", ErrorMessage := "", Result := false, OrderID := "", ClientOid := "" }
  let (resp, err) := doRequest exchange "POST" PLACE_ORDER reqBody zero
  match err with
  | some e => ("", some e)
  | none =>
    if resp.ErrorMessage ≠ "" then
      ("", some (resp.ErrorCode ++ ":" ++ resp.ErrorMessage))
    else
      (resp.OrderID, none)

/-- Modelled from the spec: `SwapCancelOrderResult` is declared outside src/;
§4.1 gives the cancellation response as the `{error_code, error_message,
result}` triple, which is `BaseResponse`. -/
structure SwapCancelOrderResult extends BaseResponse where
deriving DecidableEq, Repr

/-- Go `FutureCancelOrder` (lines 234-253). -/
def FutureCancelOrder (exchange : Exchange SwapCancelOrderResult)
    (_currencyPair : CurrencyPair) (contractType orderId : String) : Bool × Option Error :=
  let zero : SwapCancelOrderResult := { ErrorCode := "", ErrorMessage := "", Result := false }
  let (resp, err) := doRequest exchange "POST" (CANCEL_ORDER contractType orderId) "" zero
  match err with
  | some e => (false, some e)
  | none => (resp.Result, none)

/-! ## Accounts (`GetFutureUserinfo`, lines 143-182) -/

def BTC_USD_SWAP : String := "BTC-USD-SWAP"
def LTC_USD_SWAP : String := "LTC-USD-SWAP"
def ETH_USD_SWAP : String := "ETH-USD-SWAP"
def ETC_USD_SWAP : String := "ETC-USD-SWAP"
def BCH_USD_SWAP : String := "BCH-USD-SWAP"
def BSV_USD_SWAP : String := "BSV-USD-SWAP"
def EOS_USD_SWAP : String := "EOS-USD-SWAP"
def XRP_USD_SWAP : String := "XRP-USD-SWAP"

/-- Modelled from the spec: the currency constants of the parent package,
outside src/, each the currency of that symbol. -/
def BTC : Currency := ⟨"BTC"⟩
def LTC : Currency := ⟨"LTC"⟩
def ETH : Currency := ⟨"ETH"⟩
def ETC : Currency := ⟨"ETC"⟩
def BCH : Currency := ⟨"BCH"⟩
def BSV : Currency := ⟨"BSV"⟩
def EOS : Currency := ⟨"EOS"⟩
def XRP : Currency := ⟨"XRP"⟩
def UNKNOWN : Currency := ⟨"UNKNOWN"⟩

/-- A Go `map[K]V` as its entries, at most one per key; the order of the
entries carries no meaning. -/
abbrev GoMap (K V : Type) := List (K × V)

/-- Go `m[k] = v`: the entry under `k`, if any, is replaced. -/
def GoMap.set {K V : Type} [DecidableEq K] (m : GoMap K V) (k : K) (v : V) : GoMap K V :=
  (k, v) :: m.filter (fun e => decide (e.1 ≠ k))

/-- Go `v, ok := m[k]`. -/
def GoMap.get? {K V : Type} [DecidableEq K] (m : GoMap K V) (k : K) : Option V :=
  (m.find? (fun e => decide (e.1 = k))).map Prod.snd

/-- The keys of the map. -/
def GoMap.keys {K V : Type} (m : GoMap K V) : List K := m.map Prod.fst

/-- The fields of a row of `SwapAccounts.Info` that `GetFutureUserinfo` reads. -/
structure SwapAccountInfo (F : Type) where
  InstrumentId : String
  Equity : F
  Margin : F
  RealizedPnl : F
  UnrealizedPnl : F
  MarginRatio : F
deriving DecidableEq, Repr

/-- Go `SwapAccounts`. -/
structure SwapAccounts (F : Type) where
  Info : List (SwapAccountInfo F)
deriving DecidableEq, Repr

/-- The fields of `FutureSubAccount` (parent package) that the adapter assigns. -/
structure FutureSubAccount (F : Type) where
  Currency : Currency
  AccountRights : F
  KeepDeposit : F
  ProfitReal : F
  ProfitUnreal : F
  RiskRate : F
deriving DecidableEq, Repr

/-- Go `FutureAccount` (parent package). -/
structure FutureAccount (F : Type) where
  FutureSubAccounts : GoMap Currency (FutureSubAccount F)
deriving DecidableEq, Repr

/-- The body of the loop of lines 155-179 up to the map write: the sub-account
built from one row, its currency chosen by the switch of lines 158-177. -/
def subAccountOf {F : Type} (account : SwapAccountInfo F) : FutureSubAccount F :=
  let subAcc : FutureSubAccount F :=
    { Currency := ⟨""⟩, AccountRights := account.Equity, KeepDeposit := account.Margin,
      ProfitReal := account.RealizedPnl, ProfitUnreal := account.UnrealizedPnl,
      RiskRate := account.MarginRatio }
  if account.InstrumentId = BTC_USD_SWAP then { subAcc with Currency := BTC }
  else if account.InstrumentId = LTC_USD_SWAP then { subAcc with Currency := LTC }
  else if account.InstrumentId = ETH_USD_SWAP then { subAcc with Currency := ETH }
  else if account.InstrumentId = ETC_USD_SWAP then { subAcc with Currency := ETC }
  else if account.InstrumentId = BCH_USD_SWAP then { subAcc with Currency := BCH }
  else if account.InstrumentId = BSV_USD_SWAP then { subAcc with Currency := BSV }
  else if account.InstrumentId = EOS_USD_SWAP then { subAcc with Currency := EOS }
  else if account.InstrumentId = XRP_USD_SWAP then { subAcc with Currency := XRP }
  else { subAcc with Currency := UNKNOWN }

/-- The loop of lines 155-179, `for _, account := range infos.Info`, from the map built so far. -/
def accountLoop {F : Type} :
    List (SwapAccountInfo F) → GoMap Currency (FutureSubAccount F) →
      GoMap Currency (FutureSubAccount F)
  | [], FutureSubAccounts => FutureSubAccounts
  | account :: rest, FutureSubAccounts =>
      let subAcc := subAccountOf account
      accountLoop rest (FutureSubAccounts.set subAcc.Currency subAcc)

/-- Go `GetFutureUserinfo` (lines 143-182). -/
def GetFutureUserinfo {F : Type} (exchange : Exchange (SwapAccounts F)) :
    Option (FutureAccount F) × Option Error :=
  let (infos, err) := doRequest exchange "GET" GET_ACCOUNTS "" ({ Info := [] } : SwapAccounts F)
  match err with
  | some e => (none, some e)
  | none => (some { FutureSubAccounts := accountLoop infos.Info [] }, none)

/-- The instrument-to-currency table as the specification words it: the eight
known swap instruments, and UNKNOWN for every other string. -/
def currencyOf (instrument : String) : Currency :=
  match [("BTC-USD-SWAP", "BTC"), ("LTC-USD-SWAP", "LTC"), ("ETH-USD-SWAP", "ETH"),
         ("ETC-USD-SWAP", "ETC"), ("BCH-USD-SWAP", "BCH"), ("BSV-USD-SWAP", "BSV"),
         ("EOS-USD-SWAP", "EOS"), ("XRP-USD-SWAP", "XRP")].lookup instrument with
  | some symbol => ⟨symbol⟩
  | none => ⟨"UNKNOWN"⟩

/-! ## Ticker (`GetFutureTicker`, lines 98-113) -/

/-- Go `fmt.Sprintf(GET_TICKER, a)` with `GET_TICKER = "/api/swap/v3/instruments/%s/ticker"`. -/
def GET_TICKER (a : String) : String := "/api/swap/v3/instruments/" ++ a ++ "/ticker"

/-- The fields of `BaseTickerInfo` that `GetFutureTicker` reads. -/
structure BaseTickerInfo (F : Type) where
  Last : F
  Low24h : F
  High24h : F
  Volume24h : F
  Timestamp : String
deriving DecidableEq, Repr

/-- The fields of `Ticker` (parent package) that `GetFutureTicker` assigns; `Date` is a `uint64`. -/
structure Ticker (F : Type) where
  Pair : CurrencyPair
  Last : F
  Low : F
  High : F
  Vol : F
  Date : Int
deriving DecidableEq, Repr

/-- Go `GetFutureTicker` (lines 98-113). The error of `time.Parse` is discarded (line 105). -/
def GetFutureTicker {F : Type} [Zero F] (exchange : Exchange (BaseTickerInfo F))
    (rfc3339 : String → Option Time) (currencyPair : CurrencyPair) (contractType : String) :
    Option (Ticker F) × Option Error :=
  let zero : BaseTickerInfo F :=
    { Last := 0, Low24h := 0, High24h := 0, Volume24h := 0, Timestamp := "" }
  let (resp, err) := doRequest exchange "GET" (GET_TICKER contractType) "" zero
  match err with
  | some e => (none, some e)
  | none =>
    let date := (time_Parse rfc3339 resp.Timestamp).1
    (some { Pair := currencyPair
            Last := resp.Last
            Low := resp.Low24h
            High := resp.High24h
            Vol := resp.Volume24h
            Date := toUint64 (Int.tdiv date.UnixNano Millisecond) }, none)

/-! ## Single order (`GetFutureOrder`, lines 318-358) -/

/-- Go `fmt.Sprintf(GET_ORDER, a, b)` with `GET_ORDER = "/api/swap/v3/orders/%s/%s"`. -/
def GET_ORDER (a b : String) : String := "/api/swap/v3/orders/" ++ a ++ "/" ++ b

/-- The anonymous response struct of lines 324-327: `BizWarmTips` and `BaseOrderInfo` embedded. -/
structure OrderResponse (F : Type) extends BizWarmTips, BaseOrderInfo F where
deriving DecidableEq, Repr

/-- Go `GetFutureOrder` (lines 318-358). -/
def GetFutureOrder {F : Type} [Zero F] (exchange : Exchange (OrderResponse F))
    (rfc3339 : String → Option Time) (orderId : String) (currencyPair : CurrencyPair)
    (contractType : String) : Option (FutureOrder F) × Option Error :=
  let zero : OrderResponse F :=
    { Code := 0, Message := "", OrderId := "", Size := 0, Price := 0, FilledQty := 0,
      PriceAvg := 0, Type_ := 0, Status := 0, Fee := 0, Timestamp := "" }
  let (resp, err) := doRequest exchange "GET" (GET_ORDER contractType orderId) "" zero
  match err with
  | some e => (none, some e)
  | none =>
    if resp.Message ≠ "" then
      (none, some ("\x7b\"ErrCode\":" ++ toString resp.Code ++ ",\"ErrMessage\":\""
        ++ resp.Message ++ "\"\x7d"))
    else
      let oTime := (time_Parse rfc3339 resp.Timestamp).1
      (some { Currency := currencyPair
              ContractName := contractType
              OrderID2 := resp.OrderId
              Amount := resp.Size
              Price := resp.Price
              DealAmount := resp.FilledQty
              AvgPrice := resp.PriceAvg
              OType := resp.Type_
              Fee := resp.Fee
              Status := AdaptTradeStatus resp.Status
              OrderTime := Int.tdiv oTime.UnixNano Millisecond }, none)

/-! ## Position (`GetFuturePosition`, lines 360-409) -/

/-- Go `fmt.Sprintf(GET_POSITION, a)` with `GET_POSITION = "/api/swap/v3/%s/position"`. -/
def GET_POSITION (a : String) : String := "/api/swap/v3/" ++ a ++ "/position"

/-- The fields of `SwapPositionHolding` that `GetFuturePosition` reads. -/
structure SwapPositionHolding (F : Type) where
  LiquidationPrice : F
  Position : F
  AvailPosition : F
  AvgCost : F
  RealizedPnl : F
  SettlementPrice : F
  Side : String
deriving DecidableEq, Repr

/-- The zero value of `SwapPositionHolding` (the `var` declarations of lines 374-377). -/
def SwapPositionHolding.zero {F : Type} [Zero F] : SwapPositionHolding F :=
  { LiquidationPrice := 0, Position := 0, AvailPosition := 0, AvgCost := 0, RealizedPnl := 0,
    SettlementPrice := 0, Side := "" }

/-- The field of `SwapPosition` that `GetFuturePosition` reads. -/
structure SwapPosition (F : Type) where
  Holding : List (SwapPositionHolding F)
deriving DecidableEq, Repr

/-- The fields of `FuturePosition` (parent package) that `GetFuturePosition` assigns. -/
structure FuturePosition (F : Type) where
  ContractType : String
  Symbol : CurrencyPair
  ForceLiquPrice : F
  BuyAmount : F
  BuyAvailable : F
  BuyPriceAvg : F
  BuyProfitReal : F
  BuyPriceCost : F
  SellAmount : F
  SellAvailable : F
  SellPriceAvg : F
  SellProfitReal : F
  SellPriceCost : F
deriving DecidableEq, Repr

/-- Lines 380-390, run when `len(resp.Holding) > 0`: the pair
`(buyPosition, sellPosition)`, each starting from its zero value. -/
def selectSides {F : Type} [Zero F] (Holding : List (SwapPositionHolding F)) :
    Except String (SwapPositionHolding F × SwapPositionHolding F) := do
  let first ← index Holding 0
  if first.Side = "long" then
    let buyPosition := first
    if Holding.length = 2 then
      let sellPosition ← index Holding 1
      pure (buyPosition, sellPosition)
    else
      pure (buyPosition, SwapPositionHolding.zero)
  else
    let sellPosition := first
    if Holding.length = 2 then
      let buyPosition ← index Holding 1
      pure (buyPosition, sellPosition)
    else
      pure (SwapPositionHolding.zero, sellPosition)

/-- Lines 392-404: the writes to `positions[0]`, in the order of the source;
`ForceLiquPrice` is written at line 392 and again at line 399. -/
def fillPosition {F : Type} (position : FuturePosition F)
    (buyPosition sellPosition : SwapPositionHolding F) : FuturePosition F :=
  let position := { position with ForceLiquPrice := buyPosition.LiquidationPrice }
  let position := { position with BuyAmount := buyPosition.Position }
  let position := { position with BuyAvailable := buyPosition.AvailPosition }
  let position := { position with BuyPriceAvg := buyPosition.AvgCost }
  let position := { position with BuyProfitReal := buyPosition.RealizedPnl }
  let position := { position with BuyPriceCost := buyPosition.SettlementPrice }
  let position := { position with ForceLiquPrice := sellPosition.LiquidationPrice }
  let position := { position with SellAmount := sellPosition.Position }
  let position := { position with SellAvailable := sellPosition.AvailPosition }
  let position := { position with SellPriceAvg := sellPosition.AvgCost }
  let position := { position with SellProfitReal := sellPosition.RealizedPnl }
  let position := { position with SellPriceCost := sellPosition.SettlementPrice }
  position

/-- The composite literal of lines 370-372,
`FuturePosition{ContractType: contractType, Symbol: currencyPair}`: every other field is zero. -/
def newPosition {F : Type} [Zero F] (currencyPair : CurrencyPair) (contractType : String) :
    FuturePosition F :=
  { ContractType := contractType, Symbol := currencyPair, ForceLiquPrice := 0,
    BuyAmount := 0, BuyAvailable := 0, BuyPriceAvg := 0, BuyProfitReal := 0,
    BuyPriceCost := 0, SellAmount := 0, SellAvailable := 0, SellPriceAvg := 0,
    SellProfitReal := 0, SellPriceCost := 0 }

/-- Go `GetFuturePosition` (lines 360-409). -/
def GetFuturePosition {F : Type} [Zero F] (exchange : Exchange (SwapPosition F))
    (currencyPair : CurrencyPair) (contractType : String) :
    Except String (List (FuturePosition F) × Option Error) :=
  let (resp, err) := doRequest exchange "GET" (GET_POSITION contractType) ""
    ({ Holding := [] } : SwapPosition F)
  match err with
  | some e => .ok ([], some e)
  | none => do
    let position : FuturePosition F := newPosition currencyPair contractType
    if resp.Holding.length > 0 then
      let (buyPosition, sellPosition) ← selectSides resp.Holding
      .ok ([fillPosition position buyPosition sellPosition], none)
    else
      .ok ([position], none)

/-- The five buy-side fields of a position: amount, available, average price,
realized profit, cost price. -/
def FuturePosition.buySide {F : Type} (p : FuturePosition F) : F × F × F × F × F :=
  (p.BuyAmount, p.BuyAvailable, p.BuyPriceAvg, p.BuyProfitReal, p.BuyPriceCost)

/-- The five sell-side fields of a position, in the same order. -/
def FuturePosition.sellSide {F : Type} (p : FuturePosition F) : F × F × F × F × F :=
  (p.SellAmount, p.SellAvailable, p.SellPriceAvg, p.SellProfitReal, p.SellPriceCost)

/-- What a holding row contributes to one side of a position: position,
avail_position, avg_cost, realized_pnl, settlement_price. -/
def SwapPositionHolding.sideFields {F : Type} (h : SwapPositionHolding F) : F × F × F × F × F :=
  (h.Position, h.AvailPosition, h.AvgCost, h.RealizedPnl, h.SettlementPrice)

/-! ## Contract value (`GetContractValue`, lines 411-424) -/

/-- Modelled from the spec: the dollar and the pair constants of the parent
package, outside src/, each the pair of its two currencies. -/
def USD : Currency := ⟨"USD"⟩
def BTC_USD : CurrencyPair := ⟨BTC, USD⟩
def LTC_USD : CurrencyPair := ⟨LTC, USD⟩
def ETH_USD : CurrencyPair := ⟨ETH, USD⟩
def ETC_USD : CurrencyPair := ⟨ETC, USD⟩
def BCH_USD : CurrencyPair := ⟨BCH, USD⟩

/-- Go `GetContractValue` (lines 411-424); `float64` gives the value of an integer constant. -/
def GetContractValue {F : Type} (float64 : Int → F) (currencyPair : CurrencyPair) :
    F × Option Error :=
  if currencyPair = BTC_USD then (float64 100, none)
  else if currencyPair = LTC_USD ∨ currencyPair = ETH_USD ∨ currencyPair = ETC_USD
      ∨ currencyPair = BCH_USD then (float64 10, none)
  else (float64 (-1), some "error")

/-! ## Unsupported operations (lines 311-313 and 426-452) -/

/-- The requests handed to the transport so far. -/
abbrev CallLog := List Request

/-- Go `doRequest` with the transport's log threaded through: every call adds its request. -/
def doRequestLogged {α : Type} (exchange : Exchange α) (httpMethod uri reqBody : String)
    (response : α) (calls : CallLog) : (α × Option Error) × CallLog :=
  (doRequest exchange httpMethod uri reqBody response,
   calls ++ [⟨httpMethod, Endpoint ++ uri, reqBody⟩])

/-- Go `GetFee` (lines 426-428). -/
def GetFee (F : Type) (calls : CallLog) : Except String (F × Option Error) × CallLog :=
  (.error "not support", calls)

/-- Go `GetFutureEstimatedPrice` (lines 430-432). -/
def GetFutureEstimatedPrice (F : Type) (_currencyPair : CurrencyPair) (calls : CallLog) :
    Except String (F × Option Error) × CallLog :=
  (.error "not support", calls)

/-- Go `GetFutureIndex` (lines 434-436). -/
def GetFutureIndex (F : Type) (_currencyPair : CurrencyPair) (calls : CallLog) :
    Except String (F × Option Error) × CallLog :=
  (.error "not support", calls)

/-- Go `GetDeliveryTime` (lines 438-440); its results are four `int`, no `error`. -/
def GetDeliveryTime (calls : CallLog) : Except String (Int × Int × Int × Int) × CallLog :=
  (.error "not support", calls)

/-- Go `GetKlineRecords` (lines 442-444); `K` is `FutureKline` of the parent package. -/
def GetKlineRecords (K : Type) (_contract_type : String) (_currency : CurrencyPair)
    (_period _size _since : Int) (calls : CallLog) :
    Except String (List K × Option Error) × CallLog :=
  (.error "not support", calls)

/-- Go `GetTrades` (lines 446-448); `T` is `Trade` of the parent package. -/
def GetTrades (T : Type) (_contract_type : String) (_currencyPair : CurrencyPair) (_since : Int)
    (calls : CallLog) : Except String (List T × Option Error) × CallLog :=
  (.error "not support", calls)

/-- Go `GetExchangeRate` (lines 450-452). -/
def GetExchangeRate (F : Type) (calls : CallLog) : Except String (F × Option Error) × CallLog :=
  (.error "not support", calls)

/-- Go `GetFutureOrders` (lines 311-313): `panic("")`. -/
def GetFutureOrders (F : Type) (_orderIds : List String) (_currencyPair : CurrencyPair)
    (_contractType : String) (calls : CallLog) :
    Except String (List (FutureOrder F) × Option Error) × CallLog :=
  (.error "", calls)

/-! ## Concrete exchanges used to run the operations -/

/-- The integers `%d` prints for the status constants at the concrete runs below. -/
def demoStatusCode : TradeStatus → Int
  | ORDER_UNFINISH => 0
  | ORDER_PART_FINISH => 1
  | ORDER_FINISH => 2
  | ORDER_CANCEL => 3

/-- A raw order record with the given id and status. -/
def demoOrder (orderId : String) (status : Int) : BaseOrderInfo ℚ :=
  { OrderId := orderId, Size := 10, Price := 3800, FilledQty := 0, PriceAvg := 0, Type_ := 1,
    Status := status, Fee := 0, Timestamp := "2019-01-09T09:02:03.000Z" }

/-- The "unfinished" page of the concrete runs: two records, empty message. -/
def demoUnfinishedPage : SwapOrdersInfo ℚ :=
  { Code := 0, Message := "", OrderInfo := [demoOrder "6a-1" 0, demoOrder "6a-2" 0] }

/-- A "partially filled" page with one record and empty message. -/
def demoPartFinishPage : SwapOrdersInfo ℚ :=
  { Code := 0, Message := "", OrderInfo := [demoOrder "6a-3" 1] }

/-- A "partially filled" page whose envelope carries an error message next to a record. -/
def demoPartFinishErrorPage : SwapOrdersInfo ℚ :=
  { Code := 30001, Message := "OK_ACCESS_KEY cannot be blank", OrderInfo := [demoOrder "6a-3" 1] }

/-- An exchange answering the "unfinished" request for BTC-USD-SWAP with
`demoUnfinishedPage` and every other request with `second`. -/
def demoExchange (second : Reply (SwapOrdersInfo ℚ)) : Exchange (SwapOrdersInfo ℚ) :=
  fun req =>
    if req.url = "https://www.okex.com/api/swap/v3/orders/BTC-USD-SWAP?status=0&from=1&limit=100"
    then .unmarshalled demoUnfinishedPage none
    else second

/-- BTC against USD. -/
def demoPair : CurrencyPair := ⟨⟨"BTC"⟩, ⟨"USD"⟩⟩

/-- The account payload of the specification's scenario: one BTC-USD-SWAP row. -/
def demoAccounts : SwapAccounts ℚ :=
  { Info := [{ InstrumentId := "BTC-USD-SWAP", Equity := 1.5, Margin := 0.2,
               RealizedPnl := 0.01, UnrealizedPnl := -0.02, MarginRatio := 3.0 }] }

/-- An account payload with a known instrument, an unknown one, and the known one again. -/
def demoMixedAccounts : SwapAccounts ℚ :=
  { Info := [{ InstrumentId := "BTC-USD-SWAP", Equity := 1.5, Margin := 0.2,
               RealizedPnl := 0.01, UnrealizedPnl := -0.02, MarginRatio := 3.0 },
             { InstrumentId := "TRX-USD-SWAP", Equity := 7, Margin := 1,
               RealizedPnl := 0, UnrealizedPnl := 0, MarginRatio := 2 },
             { InstrumentId := "BTC-USD-SWAP", Equity := 4, Margin := 0.5,
               RealizedPnl := 0, UnrealizedPnl := 0, MarginRatio := 5 }] }

/-- A long holding row of the concrete runs. -/
def demoLong : SwapPositionHolding ℚ :=
  { LiquidationPrice := 3000, Position := 5, AvailPosition := 4, AvgCost := 3800,
    RealizedPnl := 0.5, SettlementPrice := 3790, Side := "long" }

/-- A second long holding row. -/
def demoLong2 : SwapPositionHolding ℚ :=
  { LiquidationPrice := 3100, Position := 9, AvailPosition := 8, AvgCost := 3900,
    RealizedPnl := 0.7, SettlementPrice := 3890, Side := "long" }

/-- A short holding row of the concrete runs. -/
def demoShort : SwapPositionHolding ℚ :=
  { LiquidationPrice := 4500, Position := 2, AvailPosition := 1, AvgCost := 4000,
    RealizedPnl := -0.25, SettlementPrice := 3990, Side := "short" }

/-- A ticker payload whose timestamp is not RFC3339 text. -/
def demoTicker : BaseTickerInfo ℚ :=
  { Last := 3800, Low24h := 3700, High24h := 3900, Volume24h := 120000, Timestamp := "n/a" }

/-- A decoded single-order response with an empty message. -/
def demoOrderResponse : OrderResponse ℚ :=
  { Code := 0, Message := "", OrderId := "6a-1", Size := 10, Price := 3800, FilledQty := 4,
    PriceAvg := 3799, Type_ := 1, Status := 1, Fee := -0.01,
    Timestamp := "2019-01-09T09:02:03.000Z" }

/-- A timestamp parser for the concrete runs: it knows one text, 2019-01-09T09:02:03Z. -/
def demoRfc3339 (value : String) : Option Time :=
  if value = "2019-01-09T09:02:03.000Z" then some ⟨63682621323, 0⟩ else none

/-! ## Theorems -/

theorem ok_bind {ε α β : Type} (a : α) (f : α → Except ε β) :
    (Except.ok a >>= f) = f a := rfl

theorem index_of_getElem? {α : Type} {xs : List α} {i : Nat} {x : α} (h : xs[i]? = some x) :
    index xs i = .ok x := by
  simp [index, h]

theorem tuple_fields {R : Type} (v : List R) (h : 2 ≤ v.length) :
    ∃ p a, v[0]? = some p ∧ v[1]? = some a := by
  match v, h with
  | p :: a :: _, _ => exact ⟨p, a, by simp, by simp⟩

theorem bidLoop_spec {F R : Type} (ToFloat64 : R → F) (Bids : List (List R))
    (acc : List (DepthRecord F)) (h : ∀ v ∈ Bids, 2 ≤ v.length) :
    ∃ recs, bidLoop ToFloat64 Bids acc = .ok (acc ++ recs) ∧ recs.length = Bids.length ∧
      ∀ i, i < Bids.length → ∃ v p a, Bids[i]? = some v ∧ v[0]? = some p ∧ v[1]? = some a ∧
        recs[i]? = some { Price := ToFloat64 p, Amount := ToFloat64 a } := by
  induction Bids generalizing acc with
  | nil => exact ⟨[], by simp [bidLoop], rfl, fun i hi => absurd hi (by simp)⟩
  | cons v rest ih =>
    obtain ⟨p, a, hp, ha⟩ := tuple_fields v (h v (by simp))
    obtain ⟨recs, hrun, hlen, hrec⟩ :=
      ih (acc ++ [{ Price := ToFloat64 p, Amount := ToFloat64 a }])
        (fun w hw => h w (List.mem_cons_of_mem _ hw))
    refine ⟨{ Price := ToFloat64 p, Amount := ToFloat64 a } :: recs, ?_, by simp [hlen], ?_⟩
    · simp only [bidLoop, index_of_getElem? hp, index_of_getElem? ha, ok_bind, bind_pure_comp]
      simpa using hrun
    · intro i hi
      cases i with
      | zero => exact ⟨v, p, a, by simp, hp, ha, by simp⟩
      | succ j =>
        obtain ⟨w, q, b, hw, hq, hb, hr⟩ := hrec j (by simpa using hi)
        exact ⟨w, q, b, by simpa using hw, hq, hb, by simpa using hr⟩

theorem askLoop_spec {F R : Type} (ToFloat64 : R → F) (Asks : List (List R))
    (h : ∀ v ∈ Asks, 2 ≤ v.length) (k : Nat) (hk : k ≤ Asks.length)
    (acc : List (DepthRecord F)) :
    ∃ recs, askLoop ToFloat64 Asks k acc = .ok (acc ++ recs) ∧ recs.length = k ∧
      ∀ i, i < k → ∃ v p a, Asks[k - 1 - i]? = some v ∧ v[0]? = some p ∧ v[1]? = some a ∧
        recs[i]? = some { Price := ToFloat64 p, Amount := ToFloat64 a } := by
  induction k generalizing acc with
  | zero => exact ⟨[], by simp [askLoop], rfl, fun i hi => absurd hi (by simp)⟩
  | succ k ih =>
    have hlt : k < Asks.length := hk
    have hrow : Asks[k]? = some Asks[k] := List.getElem?_eq_getElem hlt
    obtain ⟨p, a, hp, ha⟩ := tuple_fields Asks[k] (h _ (List.getElem_mem _))
    obtain ⟨recs, hrun, hlen, hrec⟩ :=
      ih (Nat.le_of_lt hlt) (acc ++ [{ Price := ToFloat64 p, Amount := ToFloat64 a }])
    refine ⟨{ Price := ToFloat64 p, Amount := ToFloat64 a } :: recs, ?_, by simp [hlen], ?_⟩
    · simp only [askLoop, index_of_getElem? hrow, index_of_getElem? hp, index_of_getElem? ha,
        ok_bind]
      simpa using hrun
    · intro i hi
      cases i with
      | zero => exact ⟨Asks[k], p, a, by simp [hrow], hp, ha, by simp⟩
      | succ j =>
        obtain ⟨w, q, b, hw, hq, hb, hr⟩ := hrec j (by omega)
        refine ⟨w, q, b, ?_, hq, hb, by simpa using hr⟩
        rw [show k + 1 - 1 - (j + 1) = k - 1 - j by omega]
        exact hw

/-- C1. A successfully decoded depth response whose tuples all carry a price
and an amount yields a Depth whose bid list follows the raw bids in order and
whose ask list is the raw asks reversed, each record being
`(ToFloat64 t[0], ToFloat64 t[1])`. -/
theorem GetFutureDepth_bids_in_order_asks_reversed {F R : Type}
    (exchange : Exchange (SwapInstrumentDepth R)) (rfc3339 : String → Option Time)
    (ToFloat64 : R → F) (currencyPair : CurrencyPair) (contractType : String) (size : Int)
    (resp : SwapInstrumentDepth R)
    (hresp : exchange ⟨"GET", Endpoint ++ GET_DEPTH contractType size, ""⟩
      = .unmarshalled resp none)
    (hbids : ∀ b ∈ resp.Bids, 2 ≤ b.length) (hasks : ∀ a ∈ resp.Asks, 2 ≤ a.length) :
    ∃ dep : Depth F,
      GetFutureDepth exchange rfc3339 ToFloat64 currencyPair contractType size
        = .ok (some dep, none) ∧
      dep.BidList.length = resp.Bids.length ∧
      (∀ i, i < resp.Bids.length → ∃ b price amount,
        resp.Bids[i]? = some b ∧ b[0]? = some price ∧ b[1]? = some amount ∧
        dep.BidList[i]? = some { Price := ToFloat64 price, Amount := ToFloat64 amount }) ∧
      dep.AskList.length = resp.Asks.length ∧
      (∀ i, i < resp.Asks.length → ∃ a price amount,
        resp.Asks[resp.Asks.length - 1 - i]? = some a ∧ a[0]? = some price ∧
        a[1]? = some amount ∧
        dep.AskList[i]? = some { Price := ToFloat64 price, Amount := ToFloat64 amount }) := by
  obtain ⟨bids, hbrun, hblen, hbrec⟩ := bidLoop_spec ToFloat64 resp.Bids [] hbids
  obtain ⟨asks, harun, halen, harec⟩ :=
    askLoop_spec ToFloat64 resp.Asks hasks resp.Asks.length (Nat.le_refl _) []
  refine ⟨{ ContractType := contractType, Pair := currencyPair,
            UTime := (time_Parse rfc3339 resp.Timestamp).1, AskList := asks, BidList := bids },
    ?_, hblen, hbrec, halen, harec⟩
  simp only [GetFutureDepth, doRequest, hresp, hbrun, harun, ok_bind, List.nil_append]

/-- C1 at a concrete book: two bids and three asks over string tuples. -/
theorem GetFutureDepth_bids_in_order_asks_reversed_witness :
    ∃ dep : Depth String,
      GetFutureDepth
        (fun _ => Reply.unmarshalled
          { Asks := [["103", "1"], ["102", "2", "x"], ["101", "3"]],
            Bids := [["100", "4"], ["99", "5"]], Timestamp := "t" } none)
        (fun _ => none) id ⟨⟨"BTC"⟩, ⟨"USD"⟩⟩ "BTC-USD-SWAP" 5 = .ok (some dep, none) ∧
      dep.BidList = [⟨"100", "4"⟩, ⟨"99", "5"⟩] ∧
      dep.AskList = [⟨"101", "3"⟩, ⟨"102", "2"⟩, ⟨"103", "1"⟩] := by
  obtain ⟨dep, hrun, -, -, -, -⟩ :=
    GetFutureDepth_bids_in_order_asks_reversed
      (fun _ => Reply.unmarshalled
        { Asks := [["103", "1"], ["102", "2", "x"], ["101", "3"]],
          Bids := [["100", "4"], ["99", "5"]], Timestamp := "t" } none)
      (fun _ => none) (id : String → String) ⟨⟨"BTC"⟩, ⟨"USD"⟩⟩ "BTC-USD-SWAP" 5
      { Asks := [["103", "1"], ["102", "2", "x"], ["101", "3"]],
        Bids := [["100", "4"], ["99", "5"]], Timestamp := "t" } rfl
      (by decide) (by decide)
  have heval : GetFutureDepth
      (fun _ => Reply.unmarshalled
        { Asks := [["103", "1"], ["102", "2", "x"], ["101", "3"]],
          Bids := [["100", "4"], ["99", "5"]], Timestamp := "t" } none)
      (fun _ => none) (id : String → String) ⟨⟨"BTC"⟩, ⟨"USD"⟩⟩ "BTC-USD-SWAP" 5
      = .ok (some { ContractType := "BTC-USD-SWAP", Pair := ⟨⟨"BTC"⟩, ⟨"USD"⟩⟩,
                    UTime := Time.zero,
                    AskList := [⟨"101", "3"⟩, ⟨"102", "2"⟩, ⟨"103", "1"⟩],
                    BidList := [⟨"100", "4"⟩, ⟨"99", "5"⟩] }, none) := rfl
  rw [heval] at hrun
  cases hrun
  exact ⟨_, heval, rfl, rfl⟩

/-- C2. `AdaptTradeStatus` follows the reference table on every integer. -/
theorem AdaptTradeStatus_table (status : Int) :
    (status = -1 → AdaptTradeStatus status = ORDER_CANCEL) ∧
    (status = 0 → AdaptTradeStatus status = ORDER_UNFINISH) ∧
    (status = 1 → AdaptTradeStatus status = ORDER_PART_FINISH) ∧
    (status = 2 → AdaptTradeStatus status = ORDER_FINISH) ∧
    (status ≠ -1 → status ≠ 0 → status ≠ 1 → status ≠ 2 →
      AdaptTradeStatus status = ORDER_UNFINISH) := by
  refine ⟨?_, ?_, ?_, ?_, ?_⟩
  · rintro rfl; rfl
  · rintro rfl; rfl
  · rintro rfl; rfl
  · rintro rfl; rfl
  · intro h1 h2 h3 h4; simp [AdaptTradeStatus, h1, h2, h3, h4]

/-- C2 at an unknown status code. -/
theorem AdaptTradeStatus_table_witness : AdaptTradeStatus 7 = ORDER_UNFINISH :=
  (AdaptTradeStatus_table 7).2.2.2.2 (by decide) (by decide) (by decide) (by decide)

theorem orderLoop_eq {F : Type} (rfc3339 : String → Option Time) (currencyPair : CurrencyPair)
    (contractType : String) (infos : List (BaseOrderInfo F)) (orders : List (FutureOrder F)) :
    orderLoop rfc3339 currencyPair contractType infos orders
      = orders ++ infos.map (fun info =>
          { parseOrder rfc3339 info with Currency := currencyPair, ContractName := contractType }) := by
  induction infos generalizing orders with
  | nil => simp [orderLoop]
  | cons info rest ih => simp [orderLoop, ih]

/-- When the second request fails in the transport, the result is the first page alone. -/
theorem GetUnfinishFutureOrders_second_transport_error {F : Type}
    (exchange : Exchange (SwapOrdersInfo F)) (rfc3339 : String → Option Time)
    (statusCode : TradeStatus → Int) (currencyPair : CurrencyPair) (contractType : String)
    (page1 : SwapOrdersInfo F) (e : Error)
    (h1 : exchange ⟨"GET", Endpoint ++
      GET_UNFINISHED_ORDERS contractType (statusCode ORDER_UNFINISH) 1 100, ""⟩
        = .unmarshalled page1 none)
    (hm1 : page1.Message = "")
    (h2 : exchange ⟨"GET", Endpoint ++
      GET_UNFINISHED_ORDERS contractType (statusCode ORDER_PART_FINISH) 1 100, ""⟩
        = .transportError e) :
    GetUnfinishFutureOrders exchange rfc3339 statusCode currencyPair contractType
      = (page1.OrderInfo.map (fun info =>
          { parseOrder rfc3339 info with Currency := currencyPair, ContractName := contractType }),
         none) := by
  simp [GetUnfinishFutureOrders, doRequest, h1, h2, hm1, orderLoop_eq, orderLoop]

/-- Whatever `json.Unmarshal` returned for the second request, the records
left in the second response variable are mapped after those of the first page. -/
theorem GetUnfinishFutureOrders_second_decoded {F : Type}
    (exchange : Exchange (SwapOrdersInfo F)) (rfc3339 : String → Option Time)
    (statusCode : TradeStatus → Int) (currencyPair : CurrencyPair) (contractType : String)
    (page1 page2 : SwapOrdersInfo F) (err2 : Option Error)
    (h1 : exchange ⟨"GET", Endpoint ++
      GET_UNFINISHED_ORDERS contractType (statusCode ORDER_UNFINISH) 1 100, ""⟩
        = .unmarshalled page1 none)
    (hm1 : page1.Message = "")
    (h2 : exchange ⟨"GET", Endpoint ++
      GET_UNFINISHED_ORDERS contractType (statusCode ORDER_PART_FINISH) 1 100, ""⟩
        = .unmarshalled page2 err2) :
    GetUnfinishFutureOrders exchange rfc3339 statusCode currencyPair contractType
      = ((page1.OrderInfo ++ page2.OrderInfo).map (fun info =>
          { parseOrder rfc3339 info with Currency := currencyPair, ContractName := contractType }),
         none) := by
  simp [GetUnfinishFutureOrders, doRequest, h1, h2, hm1, orderLoop_eq]

/-- C3. Run at a second reply that is a decode error over a partly filled
response variable: the first page holds two records, the call returns three
orders (the two of the first page and the one left in the second response
variable) and a nil error. -/
theorem GetUnfinishFutureOrders_second_decode_error_run :
    demoUnfinishedPage.OrderInfo.length = 2 ∧
    GetUnfinishFutureOrders
      (demoExchange (.unmarshalled demoPartFinishPage
        (some "json: cannot unmarshal string into Go struct field .code of type int")))
      (fun _ => none) demoStatusCode demoPair "BTC-USD-SWAP"
      = ((demoUnfinishedPage.OrderInfo ++ demoPartFinishPage.OrderInfo).map (fun info =>
          { parseOrder (fun _ => none) info with
            Currency := demoPair, ContractName := "BTC-USD-SWAP" }), none) ∧
    ((GetUnfinishFutureOrders
      (demoExchange (.unmarshalled demoPartFinishPage
        (some "json: cannot unmarshal string into Go struct field .code of type int")))
      (fun _ => none) demoStatusCode demoPair "BTC-USD-SWAP").1.map (fun o => o.OrderID2))
      = ["6a-1", "6a-2", "6a-3"] := by
  have hrun : GetUnfinishFutureOrders
      (demoExchange (.unmarshalled demoPartFinishPage
        (some "json: cannot unmarshal string into Go struct field .code of type int")))
      (fun _ => none) demoStatusCode demoPair "BTC-USD-SWAP"
      = ((demoUnfinishedPage.OrderInfo ++ demoPartFinishPage.OrderInfo).map (fun info =>
          { parseOrder (fun _ => none) info with
            Currency := demoPair, ContractName := "BTC-USD-SWAP" }), none) := by
    have h1 : demoExchange (.unmarshalled demoPartFinishPage
        (some "json: cannot unmarshal string into Go struct field .code of type int"))
        ⟨"GET", Endpoint ++ GET_UNFINISHED_ORDERS "BTC-USD-SWAP"
          (demoStatusCode ORDER_UNFINISH) 1 100, ""⟩
        = .unmarshalled demoUnfinishedPage none := by decide
    have h2 : demoExchange (.unmarshalled demoPartFinishPage
        (some "json: cannot unmarshal string into Go struct field .code of type int"))
        ⟨"GET", Endpoint ++ GET_UNFINISHED_ORDERS "BTC-USD-SWAP"
          (demoStatusCode ORDER_PART_FINISH) 1 100, ""⟩
        = .unmarshalled demoPartFinishPage
          (some "json: cannot unmarshal string into Go struct field .code of type int") := by
      decide
    simp only [GetUnfinishFutureOrders, doRequest, h1, h2, orderLoop_eq, List.nil_append,
      List.map_append]
    rfl
  refine ⟨rfl, hrun, ?_⟩
  rw [hrun]
  rfl

/-- C4. When both requests are decoded with empty messages, the result is the
mapped first page followed by the mapped second page, each order stamped
with the caller's pair and contract identifier. -/
theorem GetUnfinishFutureOrders_concat {F : Type}
    (exchange : Exchange (SwapOrdersInfo F)) (rfc3339 : String → Option Time)
    (statusCode : TradeStatus → Int) (currencyPair : CurrencyPair) (contractType : String)
    (page1 page2 : SwapOrdersInfo F)
    (h1 : exchange ⟨"GET", Endpoint ++
      GET_UNFINISHED_ORDERS contractType (statusCode ORDER_UNFINISH) 1 100, ""⟩
        = .unmarshalled page1 none)
    (h2 : exchange ⟨"GET", Endpoint ++
      GET_UNFINISHED_ORDERS contractType (statusCode ORDER_PART_FINISH) 1 100, ""⟩
        = .unmarshalled page2 none)
    (hm1 : page1.Message = "") (_hm2 : page2.Message = "") :
    GetUnfinishFutureOrders exchange rfc3339 statusCode currencyPair contractType
      = (page1.OrderInfo.map (fun info =>
            { parseOrder rfc3339 info with Currency := currencyPair, ContractName := contractType })
          ++ page2.OrderInfo.map (fun info =>
            { parseOrder rfc3339 info with Currency := currencyPair, ContractName := contractType }),
         none) ∧
    (GetUnfinishFutureOrders exchange rfc3339 statusCode currencyPair contractType).1.length
      = page1.OrderInfo.length + page2.OrderInfo.length ∧
    ∀ ord ∈ (GetUnfinishFutureOrders exchange rfc3339 statusCode currencyPair contractType).1,
      ord.Currency = currencyPair ∧ ord.ContractName = contractType := by
  have hrun : GetUnfinishFutureOrders exchange rfc3339 statusCode currencyPair contractType
      = (page1.OrderInfo.map (fun info =>
            { parseOrder rfc3339 info with Currency := currencyPair, ContractName := contractType })
          ++ page2.OrderInfo.map (fun info =>
            { parseOrder rfc3339 info with Currency := currencyPair, ContractName := contractType }),
         none) := by
    simp [GetUnfinishFutureOrders, doRequest, h1, h2, hm1, orderLoop_eq]
  refine ⟨hrun, by simp [hrun], ?_⟩
  intro ord hord
  rw [hrun] at hord
  simp only [List.mem_append, List.mem_map] at hord
  rcases hord with ⟨info, -, rfl⟩ | ⟨info, -, rfl⟩ <;> exact ⟨rfl, rfl⟩

/-- C4 at a concrete exchange: two unfinished records, then one partially filled record. -/
theorem GetUnfinishFutureOrders_concat_witness :
    ((GetUnfinishFutureOrders (demoExchange (.unmarshalled demoPartFinishPage none))
        (fun _ => none) demoStatusCode demoPair "BTC-USD-SWAP").1.map (fun o => o.OrderID2))
      = ["6a-1", "6a-2", "6a-3"] ∧
    (GetUnfinishFutureOrders (demoExchange (.unmarshalled demoPartFinishPage none))
        (fun _ => none) demoStatusCode demoPair "BTC-USD-SWAP").1.length = 2 + 1 := by
  have h := GetUnfinishFutureOrders_concat
    (demoExchange (.unmarshalled demoPartFinishPage none)) (fun _ => none) demoStatusCode
    demoPair "BTC-USD-SWAP" demoUnfinishedPage demoPartFinishPage
    (by decide) (by decide) rfl rfl
  refine ⟨?_, h.2.1⟩
  rw [h.1]
  rfl

/-- C5. When the first request fails (in the transport, in decoding, or by an
envelope with a non-empty message) the call returns no orders and a non-nil
error, whatever the exchange answers to any other request. -/
theorem GetUnfinishFutureOrders_first_failure {F : Type}
    (exchange : Exchange (SwapOrdersInfo F)) (rfc3339 : String → Option Time)
    (statusCode : TradeStatus → Int) (currencyPair : CurrencyPair) (contractType : String)
    (h : (∃ e, exchange ⟨"GET", Endpoint ++
            GET_UNFINISHED_ORDERS contractType (statusCode ORDER_UNFINISH) 1 100, ""⟩
              = .transportError e) ∨
         (∃ v e, exchange ⟨"GET", Endpoint ++
            GET_UNFINISHED_ORDERS contractType (statusCode ORDER_UNFINISH) 1 100, ""⟩
              = .unmarshalled v (some e)) ∨
         (∃ v, exchange ⟨"GET", Endpoint ++
            GET_UNFINISHED_ORDERS contractType (statusCode ORDER_UNFINISH) 1 100, ""⟩
              = .unmarshalled v none ∧ v.Message ≠ "")) :
    ∃ e, GetUnfinishFutureOrders exchange rfc3339 statusCode currencyPair contractType
      = ([], some e) := by
  rcases h with ⟨e, h⟩ | ⟨v, e, h⟩ | ⟨v, h, hm⟩
  · exact ⟨e, by simp [GetUnfinishFutureOrders, doRequest, h]⟩
  · exact ⟨e, by simp [GetUnfinishFutureOrders, doRequest, h]⟩
  · exact ⟨"\x7b\"ErrCode\":" ++ toString v.Code ++ ",\"ErrMessage\":\"" ++ v.Message ++ "\"",
      by simp [GetUnfinishFutureOrders, doRequest, h, hm]⟩

/-- C5 at an exchange whose first answer carries an error message and whose
second answer would have carried a record. -/
theorem GetUnfinishFutureOrders_first_failure_witness :
    ∃ e, GetUnfinishFutureOrders
      (fun req =>
        if req.url
          = "https://www.okex.com/api/swap/v3/orders/BTC-USD-SWAP?status=0&from=1&limit=100"
        then .unmarshalled demoPartFinishErrorPage none
        else .unmarshalled demoPartFinishPage none)
      (fun _ => none) demoStatusCode demoPair "BTC-USD-SWAP" = ([], some e) :=
  GetUnfinishFutureOrders_first_failure _ (fun _ => none) demoStatusCode demoPair "BTC-USD-SWAP"
    (Or.inr (Or.inr ⟨demoPartFinishErrorPage, by decide, by decide⟩))

/-- C6. Run at a second page whose envelope carries a non-empty message: its
record is mapped into the result and the error is nil. -/
theorem GetUnfinishFutureOrders_second_message_run :
    demoPartFinishErrorPage.Message ≠ "" ∧
    GetUnfinishFutureOrders (demoExchange (.unmarshalled demoPartFinishErrorPage none))
      (fun _ => none) demoStatusCode demoPair "BTC-USD-SWAP"
      = ((demoUnfinishedPage.OrderInfo ++ demoPartFinishErrorPage.OrderInfo).map (fun info =>
          { parseOrder (fun _ => none) info with
            Currency := demoPair, ContractName := "BTC-USD-SWAP" }), none) ∧
    ((GetUnfinishFutureOrders (demoExchange (.unmarshalled demoPartFinishErrorPage none))
      (fun _ => none) demoStatusCode demoPair "BTC-USD-SWAP").1.map (fun o => o.OrderID2))
      = ["6a-1", "6a-2", "6a-3"] := by
  have hrun : GetUnfinishFutureOrders
      (demoExchange (.unmarshalled demoPartFinishErrorPage none))
      (fun _ => none) demoStatusCode demoPair "BTC-USD-SWAP"
      = ((demoUnfinishedPage.OrderInfo ++ demoPartFinishErrorPage.OrderInfo).map (fun info =>
          { parseOrder (fun _ => none) info with
            Currency := demoPair, ContractName := "BTC-USD-SWAP" }), none) := by
    have h1 : demoExchange (.unmarshalled demoPartFinishErrorPage none)
        ⟨"GET", Endpoint ++ GET_UNFINISHED_ORDERS "BTC-USD-SWAP"
          (demoStatusCode ORDER_UNFINISH) 1 100, ""⟩
        = .unmarshalled demoUnfinishedPage none := by decide
    have h2 : demoExchange (.unmarshalled demoPartFinishErrorPage none)
        ⟨"GET", Endpoint ++ GET_UNFINISHED_ORDERS "BTC-USD-SWAP"
          (demoStatusCode ORDER_PART_FINISH) 1 100, ""⟩
        = .unmarshalled demoPartFinishErrorPage none := by decide
    simp only [GetUnfinishFutureOrders, doRequest, h1, h2, orderLoop_eq, List.nil_append,
      List.map_append]
    rfl
  refine ⟨by decide, hrun, ?_⟩
  rw [hrun]
  rfl

/-- C7, as the code has it. A decoded place-order response whose error_message
is non-empty yields the empty order id and the error `error_code:error_message`. -/
theorem PlaceFutureOrder_error_message (exchange : Exchange PlaceOrderResponse)
    (BuildRequestBody : PlaceOrderInfo → String) (uuid : String)
    (currencyPair : CurrencyPair) (contractType price amount : String)
    (openType matchPrice leverRate : Int) (resp : PlaceOrderResponse)
    (hresp : exchange ⟨"POST", Endpoint ++ PLACE_ORDER, BuildRequestBody
      { ClientOid := String.mk (removeHyphens 32 uuid.data), Price := price, MatchPrice := "0",
        Type_ := toString openType, Size := amount, InstrumentId := contractType }⟩
        = .unmarshalled resp none)
    (hmsg : resp.ErrorMessage ≠ "") :
    PlaceFutureOrder exchange BuildRequestBody uuid currencyPair contractType price amount
        openType matchPrice leverRate
      = ("", some (resp.ErrorCode ++ ":" ++ resp.ErrorMessage)) := by
  simp [PlaceFutureOrder, doRequest, hresp, hmsg]

/-- C7, as the code has it, at a rejected order. -/
theorem PlaceFutureOrder_error_message_witness :
    PlaceFutureOrder
      (fun _ => .unmarshalled
        { ErrorCode := "35008", ErrorMessage := "Risk ratio too high", Result := false,
          OrderID := "-1", ClientOid := "" } none)
      (fun _ => "") "0f5b1c2e-7d3a-4b6c-9e8f-1a2b3c4d5e6f" demoPair "BTC-USD-SWAP" "3800" "10" 1 0 10
      = ("", some "35008:Risk ratio too high") :=
  PlaceFutureOrder_error_message _ (fun _ => "") "0f5b1c2e-7d3a-4b6c-9e8f-1a2b3c4d5e6f" demoPair
    "BTC-USD-SWAP" "3800" "10" 1 0 10
    { ErrorCode := "35008", ErrorMessage := "Risk ratio too high", Result := false,
      OrderID := "-1", ClientOid := "" } rfl (by decide)

/-- C7 as stated fails: a decoded response with a non-empty error_code and an
empty error_message is returned as a success. -/
theorem PlaceFutureOrder_error_code_only :
    (("30001" : String) ≠ "" ∨ ("" : String) ≠ "") ∧
    PlaceFutureOrder
      (fun _ => .unmarshalled
        { ErrorCode := "30001", ErrorMessage := "", Result := false,
          OrderID := "6a-9", ClientOid := "" } none)
      (fun _ => "") "0f5b1c2e-7d3a-4b6c-9e8f-1a2b3c4d5e6f" demoPair "BTC-USD-SWAP" "3800" "10" 1 0 10
      = ("6a-9", none) ∧
    PlaceFutureOrder
      (fun _ => .unmarshalled
        { ErrorCode := "30001", ErrorMessage := "", Result := false,
          OrderID := "6a-9", ClientOid := "" } none)
      (fun _ => "") "0f5b1c2e-7d3a-4b6c-9e8f-1a2b3c4d5e6f" demoPair "BTC-USD-SWAP" "3800" "10" 1 0 10
      ≠ ("", some ("30001" ++ ":" ++ "")) := by
  refine ⟨Or.inl (by decide), rfl, ?_⟩
  simp [PlaceFutureOrder, doRequest]

/-- Every decoded cancel response is answered with its result flag and a nil error. -/
theorem FutureCancelOrder_decoded (exchange : Exchange SwapCancelOrderResult)
    (currencyPair : CurrencyPair) (contractType orderId : String) (resp : SwapCancelOrderResult)
    (hresp : exchange ⟨"POST", Endpoint ++ CANCEL_ORDER contractType orderId, ""⟩
      = .unmarshalled resp none) :
    FutureCancelOrder exchange currencyPair contractType orderId = (resp.Result, none) := by
  simp [FutureCancelOrder, doRequest, hresp]

/-- C8. Run at a decoded cancel response carrying an error code and message:
the call returns the result flag with a nil error. -/
theorem FutureCancelOrder_error_envelope_run :
    FutureCancelOrder
      (fun _ => .unmarshalled
        { ErrorCode := "35029", ErrorMessage := "Order does not exist", Result := false } none)
      demoPair "BTC-USD-SWAP" "6a-9" = (false, none) := rfl

theorem GoMap.find?_filter_ne {K V : Type} [DecidableEq K] (m : GoMap K V) (k c : K)
    (h : c ≠ k) :
    (m.filter (fun e => decide (e.1 ≠ k))).find? (fun e => decide (e.1 = c))
      = m.find? (fun e => decide (e.1 = c)) := by
  rw [List.find?_filter]
  congr 1
  funext e
  by_cases hc : e.1 = c
  · have hk : ¬ e.1 = k := fun hek => h (hc.symm.trans hek)
    simp [hc, hk, h]
  · simp [hc]

theorem GoMap.get?_set {K V : Type} [DecidableEq K] (m : GoMap K V) (k c : K) (v : V) :
    (m.set k v).get? c = if k = c then some v else m.get? c := by
  by_cases h : k = c
  · simp [GoMap.set, GoMap.get?, List.find?_cons, h]
  · have hne : c ≠ k := fun hc => h hc.symm
    have hf := GoMap.find?_filter_ne m k c hne
    simp only [GoMap.set, GoMap.get?, List.find?_cons, h, decide_False, if_false, hf]

theorem GoMap.mem_keys_iff {K V : Type} [DecidableEq K] (m : GoMap K V) (c : K) :
    c ∈ m.keys ↔ ∃ v, m.get? c = some v := by
  induction m with
  | nil => simp [GoMap.keys, GoMap.get?]
  | cons e rest ih =>
    by_cases h : e.1 = c
    · simp [GoMap.keys, GoMap.get?, List.find?_cons, h]
    · have h2 : ¬ c = e.1 := fun hc => h hc.symm
      simpa [GoMap.keys, GoMap.get?, List.find?_cons, h, h2] using ih

theorem currencyOf_unknown (instrument : String)
    (h1 : instrument ≠ "BTC-USD-SWAP") (h2 : instrument ≠ "LTC-USD-SWAP")
    (h3 : instrument ≠ "ETH-USD-SWAP") (h4 : instrument ≠ "ETC-USD-SWAP")
    (h5 : instrument ≠ "BCH-USD-SWAP") (h6 : instrument ≠ "BSV-USD-SWAP")
    (h7 : instrument ≠ "EOS-USD-SWAP") (h8 : instrument ≠ "XRP-USD-SWAP") :
    currencyOf instrument = ⟨"UNKNOWN"⟩ := by
  simp only [currencyOf, List.lookup, beq_false_of_ne h1, beq_false_of_ne h2,
    beq_false_of_ne h3, beq_false_of_ne h4, beq_false_of_ne h5, beq_false_of_ne h6,
    beq_false_of_ne h7, beq_false_of_ne h8]

theorem subAccountOf_Currency {F : Type} (account : SwapAccountInfo F) :
    (subAccountOf account).Currency = currencyOf account.InstrumentId := by
  simp only [subAccountOf]
  split_ifs with h1 h2 h3 h4 h5 h6 h7 h8
  · rw [h1]; rfl
  · rw [h2]; rfl
  · rw [h3]; rfl
  · rw [h4]; rfl
  · rw [h5]; rfl
  · rw [h6]; rfl
  · rw [h7]; rfl
  · rw [h8]; rfl
  · exact (currencyOf_unknown _ h1 h2 h3 h4 h5 h6 h7 h8).symm

theorem subAccountOf_fields {F : Type} (account : SwapAccountInfo F) :
    (subAccountOf account).AccountRights = account.Equity ∧
    (subAccountOf account).KeepDeposit = account.Margin ∧
    (subAccountOf account).ProfitReal = account.RealizedPnl ∧
    (subAccountOf account).ProfitUnreal = account.UnrealizedPnl ∧
    (subAccountOf account).RiskRate = account.MarginRatio := by
  simp only [subAccountOf]
  split_ifs <;> exact ⟨rfl, rfl, rfl, rfl, rfl⟩

/-- What the loop leaves under `c`: either the entry it started with, no row
mapping to `c`, or the sub-account of the last row mapping to `c`. -/
theorem accountLoop_get? {F : Type} (rows : List (SwapAccountInfo F))
    (m : GoMap Currency (FutureSubAccount F)) (c : Currency) :
    ((accountLoop rows m).get? c = m.get? c ∧ ∀ row ∈ rows, currencyOf row.InstrumentId ≠ c) ∨
    (∃ pre row post, rows = pre ++ row :: post ∧ currencyOf row.InstrumentId = c ∧
      (∀ r ∈ post, currencyOf r.InstrumentId ≠ c) ∧
      (accountLoop rows m).get? c = some (subAccountOf row)) := by
  induction rows generalizing m with
  | nil => exact Or.inl ⟨rfl, fun _ h => absurd h (List.not_mem_nil _)⟩
  | cons x rest ih =>
    simp only [accountLoop]
    rcases ih (m.set (subAccountOf x).Currency (subAccountOf x)) with ⟨hget, hnone⟩ | ⟨pre, row, post, hrows, hc, hpost, hget⟩
    · by_cases hx : currencyOf x.InstrumentId = c
      · refine Or.inr ⟨[], x, rest, rfl, hx, hnone, ?_⟩
        rw [hget, GoMap.get?_set, subAccountOf_Currency, if_pos hx]
      · refine Or.inl ⟨?_, ?_⟩
        · rw [hget, GoMap.get?_set, subAccountOf_Currency, if_neg hx]
        · intro row hrow
          rcases List.mem_cons.mp hrow with rfl | hrow
          · exact hx
          · exact hnone row hrow
    · exact Or.inr ⟨x :: pre, row, post, by simp [hrows], hc, hpost, hget⟩

theorem accountLoop_entries {F : Type} (rows : List (SwapAccountInfo F))
    (m : GoMap Currency (FutureSubAccount F)) (hm : ∀ e ∈ m, e.2.Currency = e.1) :
    ∀ e ∈ accountLoop rows m, e.2.Currency = e.1 := by
  induction rows generalizing m with
  | nil => exact hm
  | cons x rest ih =>
    simp only [accountLoop]
    apply ih
    intro e he
    rcases List.mem_cons.mp he with rfl | he
    · rfl
    · exact hm e (List.mem_filter.mp he).1

/-- C9. The keys of the returned map are exactly the currencies the table
assigns to the rows' instruments, a row of an unknown instrument puts
UNKNOWN among them, and every entry stores its key in its Currency field. -/
theorem GetFutureUserinfo_keys {F : Type} (exchange : Exchange (SwapAccounts F))
    (infos : SwapAccounts F)
    (hresp : exchange ⟨"GET", Endpoint ++ GET_ACCOUNTS, ""⟩ = .unmarshalled infos none) :
    ∃ acc : FutureAccount F,
      GetFutureUserinfo exchange = (some acc, none) ∧
      (∀ c, c ∈ acc.FutureSubAccounts.keys ↔
        ∃ row ∈ infos.Info, currencyOf row.InstrumentId = c) ∧
      (∀ row ∈ infos.Info,
        row.InstrumentId ∉ ["BTC-USD-SWAP", "LTC-USD-SWAP", "ETH-USD-SWAP", "ETC-USD-SWAP",
          "BCH-USD-SWAP", "BSV-USD-SWAP", "EOS-USD-SWAP", "XRP-USD-SWAP"] →
        UNKNOWN ∈ acc.FutureSubAccounts.keys) ∧
      (∀ e ∈ acc.FutureSubAccounts, e.2.Currency = e.1) := by
  have hkeys : ∀ c, c ∈ (accountLoop infos.Info ([] : GoMap Currency (FutureSubAccount F))).keys ↔
      ∃ row ∈ infos.Info, currencyOf row.InstrumentId = c := by
    intro c
    rw [GoMap.mem_keys_iff]
    rcases accountLoop_get? infos.Info [] c with ⟨hget, hnone⟩ | ⟨pre, row, post, hrows, hc, -, hget⟩
    · constructor
      · rintro ⟨v, hv⟩
        rw [hget] at hv
        simp [GoMap.get?] at hv
      · rintro ⟨row, hrow, hc⟩
        exact absurd hc (hnone row hrow)
    · constructor
      · intro _
        exact ⟨row, by simp [hrows], hc⟩
      · intro _
        exact ⟨_, hget⟩
  refine ⟨{ FutureSubAccounts := accountLoop infos.Info [] }, ?_, hkeys, ?_, ?_⟩
  · simp [GetFutureUserinfo, doRequest, hresp]
  · intro row hrow hunknown
    refine (hkeys UNKNOWN).mpr ⟨row, hrow, ?_⟩
    simp only [List.mem_cons, List.mem_singleton, List.not_mem_nil, or_false, not_or] at hunknown
    obtain ⟨h1, h2, h3, h4, h5, h6, h7, h8⟩ := hunknown
    exact currencyOf_unknown _ h1 h2 h3 h4 h5 h6 h7 h8
  · exact accountLoop_entries infos.Info [] (fun _ h => absurd h (List.not_mem_nil _))

/-- C9 at a payload with a known and an unknown instrument. -/
theorem GetFutureUserinfo_keys_witness :
    ∃ acc : FutureAccount ℚ,
      GetFutureUserinfo (fun _ => .unmarshalled demoMixedAccounts none) = (some acc, none) ∧
      BTC ∈ acc.FutureSubAccounts.keys ∧ UNKNOWN ∈ acc.FutureSubAccounts.keys ∧
      LTC ∉ acc.FutureSubAccounts.keys := by
  obtain ⟨acc, hrun, hkeys, -, -⟩ :=
    GetFutureUserinfo_keys (fun _ => .unmarshalled demoMixedAccounts none) demoMixedAccounts rfl
  refine ⟨acc, hrun, ?_, ?_, ?_⟩
  · exact (hkeys BTC).mpr ⟨_, List.mem_cons_self _ _, rfl⟩
  · exact (hkeys UNKNOWN).mpr ⟨_, List.mem_cons_of_mem _ (List.mem_cons_self _ _), rfl⟩
  · rw [hkeys]
    simp only [demoMixedAccounts, List.mem_cons, List.mem_singleton, List.not_mem_nil, or_false]
    rintro ⟨row, rfl | rfl | rfl, h⟩ <;> exact absurd h (by decide)

theorem GoMap.keys_set_nodup {K V : Type} [DecidableEq K] (m : GoMap K V) (k : K) (v : V)
    (h : m.keys.Nodup) : (m.set k v).keys.Nodup := by
  simp only [GoMap.set, GoMap.keys, List.map_cons, List.nodup_cons]
  refine ⟨?_, ?_⟩
  · intro hk
    obtain ⟨e, he, hek⟩ := List.mem_map.mp hk
    have := (List.mem_filter.mp he).2
    simp [hek] at this
  · exact List.Nodup.sublist (List.Sublist.map _ (List.filter_sublist _)) h

theorem accountLoop_keys_nodup {F : Type} (rows : List (SwapAccountInfo F))
    (m : GoMap Currency (FutureSubAccount F)) (hm : m.keys.Nodup) :
    (accountLoop rows m).keys.Nodup := by
  induction rows generalizing m with
  | nil => exact hm
  | cons x rest ih =>
    simp only [accountLoop]
    exact ih _ (GoMap.keys_set_nodup m _ _ hm)

/-- C10. Every currency has at most one entry in the returned map, and the
sub-account stored under a currency is built from the last row whose
instrument maps to it: equity, margin, realized and unrealized profit and
margin ratio are that row's. -/
theorem GetFutureUserinfo_last_write_wins {F : Type} (exchange : Exchange (SwapAccounts F))
    (infos : SwapAccounts F)
    (hresp : exchange ⟨"GET", Endpoint ++ GET_ACCOUNTS, ""⟩ = .unmarshalled infos none) :
    ∃ acc : FutureAccount F,
      GetFutureUserinfo exchange = (some acc, none) ∧
      acc.FutureSubAccounts.keys.Nodup ∧
      ∀ c sub, acc.FutureSubAccounts.get? c = some sub →
        ∃ pre row post, infos.Info = pre ++ row :: post ∧
          currencyOf row.InstrumentId = c ∧
          (∀ later ∈ post, currencyOf later.InstrumentId ≠ c) ∧
          sub.Currency = c ∧
          sub.AccountRights = row.Equity ∧
          sub.KeepDeposit = row.Margin ∧
          sub.ProfitReal = row.RealizedPnl ∧
          sub.ProfitUnreal = row.UnrealizedPnl ∧
          sub.RiskRate = row.MarginRatio := by
  refine ⟨{ FutureSubAccounts := accountLoop infos.Info [] }, ?_, ?_, ?_⟩
  · simp [GetFutureUserinfo, doRequest, hresp]
  · exact accountLoop_keys_nodup infos.Info [] List.nodup_nil
  · intro c sub hsub
    rcases accountLoop_get? infos.Info [] c with ⟨hget, -⟩ | ⟨pre, row, post, hrows, hc, hpost, hget⟩
    · rw [hget] at hsub
      simp [GoMap.get?] at hsub
    · rw [hget] at hsub
      cases hsub
      obtain ⟨h1, h2, h3, h4, h5⟩ := subAccountOf_fields row
      exact ⟨pre, row, post, hrows, hc, hpost, (subAccountOf_Currency row).trans hc,
        h1, h2, h3, h4, h5⟩

/-- C10 at the scenario payload: the single BTC-USD-SWAP row with equity 1.5
yields exactly one sub-account, under BTC, with AccountRights 1.5. -/
theorem GetFutureUserinfo_last_write_wins_witness :
    ∃ acc : FutureAccount ℚ,
      GetFutureUserinfo (fun _ => .unmarshalled demoAccounts none) = (some acc, none) ∧
      acc.FutureSubAccounts.keys = [BTC] ∧
      acc.FutureSubAccounts.get? BTC = some
        { Currency := BTC, AccountRights := 1.5, KeepDeposit := 0.2, ProfitReal := 0.01,
          ProfitUnreal := -0.02, RiskRate := 3.0 } := by
  obtain ⟨acc, hrun, -, -⟩ :=
    GetFutureUserinfo_last_write_wins (fun _ => .unmarshalled demoAccounts none) demoAccounts rfl
  have heval : GetFutureUserinfo (fun _ => Reply.unmarshalled demoAccounts none)
      = (some { FutureSubAccounts := [(BTC,
          { Currency := BTC, AccountRights := 1.5, KeepDeposit := 0.2, ProfitReal := 0.01,
            ProfitUnreal := -0.02, RiskRate := 3.0 })] }, none) := rfl
  rw [heval] at hrun
  cases hrun
  exact ⟨_, heval, rfl, rfl⟩

theorem selectSides_cons {F : Type} [Zero F] (a : SwapPositionHolding F)
    (rest : List (SwapPositionHolding F)) :
    selectSides (a :: rest) = .ok (match rest with
      | [b] => if a.Side = "long" then (a, b) else (b, a)
      | _ => if a.Side = "long" then (a, SwapPositionHolding.zero)
             else (SwapPositionHolding.zero, a)) := by
  match rest with
  | [] => by_cases h : a.Side = "long" <;> simp [selectSides, index, ok_bind, h] <;> rfl
  | [b] => by_cases h : a.Side = "long" <;> simp [selectSides, index, ok_bind, h]
  | b :: c :: more =>
    by_cases h : a.Side = "long" <;> simp [selectSides, index, ok_bind, h] <;> rfl

theorem GetFuturePosition_decoded {F : Type} [Zero F] (exchange : Exchange (SwapPosition F))
    (currencyPair : CurrencyPair) (contractType : String) (resp : SwapPosition F)
    (hresp : exchange ⟨"GET", Endpoint ++ GET_POSITION contractType, ""⟩
      = .unmarshalled resp none) :
    GetFuturePosition exchange currencyPair contractType
      = match resp.Holding with
        | [] => .ok ([newPosition currencyPair contractType], none)
        | a :: rest => selectSides (a :: rest) >>= fun sides =>
            .ok ([fillPosition (newPosition currencyPair contractType) sides.1 sides.2], none) := by
  cases hh : resp.Holding with
  | nil => simp [GetFuturePosition, doRequest, hresp, hh]
  | cons a rest =>
    simp only [GetFuturePosition, doRequest, hresp, hh, List.length_cons]
    simp

theorem short_ne_long {side : String} (h : side = "short") : ¬ side = "long" := by
  rw [h]; decide

/-- C11. A long row L and a short row S give the same position in either
order: the five Buy fields come from L and the five Sell fields from S. -/
theorem GetFuturePosition_order_independent {F : Type} [Zero F]
    (exchange₁ exchange₂ : Exchange (SwapPosition F)) (currencyPair : CurrencyPair)
    (contractType : String) (L S : SwapPositionHolding F)
    (hL : L.Side = "long") (hS : S.Side = "short")
    (h₁ : exchange₁ ⟨"GET", Endpoint ++ GET_POSITION contractType, ""⟩
      = .unmarshalled { Holding := [L, S] } none)
    (h₂ : exchange₂ ⟨"GET", Endpoint ++ GET_POSITION contractType, ""⟩
      = .unmarshalled { Holding := [S, L] } none) :
    ∃ pos : FuturePosition F,
      GetFuturePosition exchange₁ currencyPair contractType = .ok ([pos], none) ∧
      GetFuturePosition exchange₂ currencyPair contractType = .ok ([pos], none) ∧
      pos.BuyAmount = L.Position ∧ pos.BuyAvailable = L.AvailPosition ∧
      pos.BuyPriceAvg = L.AvgCost ∧ pos.BuyProfitReal = L.RealizedPnl ∧
      pos.BuyPriceCost = L.SettlementPrice ∧
      pos.SellAmount = S.Position ∧ pos.SellAvailable = S.AvailPosition ∧
      pos.SellPriceAvg = S.AvgCost ∧ pos.SellProfitReal = S.RealizedPnl ∧
      pos.SellPriceCost = S.SettlementPrice := by
  refine ⟨fillPosition (newPosition currencyPair contractType) L S, ?_, ?_,
    rfl, rfl, rfl, rfl, rfl, rfl, rfl, rfl, rfl, rfl⟩
  · rw [GetFuturePosition_decoded _ _ _ _ h₁]
    simp [selectSides_cons, hL, ok_bind]
  · rw [GetFuturePosition_decoded _ _ _ _ h₂]
    simp [selectSides_cons, short_ne_long hS, ok_bind]

/-- C11 at a concrete long row and short row. -/
theorem GetFuturePosition_order_independent_witness :
    ∃ pos : FuturePosition ℚ,
      GetFuturePosition (fun _ => .unmarshalled { Holding := [demoLong, demoShort] } none)
        demoPair "BTC-USD-SWAP" = .ok ([pos], none) ∧
      GetFuturePosition (fun _ => .unmarshalled { Holding := [demoShort, demoLong] } none)
        demoPair "BTC-USD-SWAP" = .ok ([pos], none) ∧
      pos.BuyAmount = 5 ∧ pos.SellAmount = 2 := by
  obtain ⟨pos, h1, h2, hb, -, -, -, -, hs, -⟩ :=
    GetFuturePosition_order_independent
      (fun _ => .unmarshalled { Holding := [demoLong, demoShort] } none)
      (fun _ => .unmarshalled { Holding := [demoShort, demoLong] } none)
      demoPair "BTC-USD-SWAP" demoLong demoShort rfl rfl rfl rfl
  exact ⟨pos, h1, h2, hb, hs⟩

/-- C12, as the code has it. For a holding list of at most two rows, each
tagged long or short and, when there are two, tagged differently, the Buy
fields come from a row tagged long (or are zero when there is none) and the
Sell fields come from a row tagged short (or are zero when there is none). -/
theorem GetFuturePosition_sides_by_tag {F : Type} [Zero F]
    (exchange : Exchange (SwapPosition F)) (currencyPair : CurrencyPair)
    (contractType : String) (resp : SwapPosition F)
    (hresp : exchange ⟨"GET", Endpoint ++ GET_POSITION contractType, ""⟩
      = .unmarshalled resp none)
    (hlen : resp.Holding.length ≤ 2)
    (htags : ∀ row ∈ resp.Holding, row.Side = "long" ∨ row.Side = "short")
    (hdiff : ∀ a b, resp.Holding = [a, b] → a.Side ≠ b.Side) :
    ∃ pos : FuturePosition F,
      GetFuturePosition exchange currencyPair contractType = .ok ([pos], none) ∧
      ((∃ row ∈ resp.Holding, row.Side = "long" ∧ pos.buySide = row.sideFields) ∨
        ((∀ row ∈ resp.Holding, row.Side ≠ "long") ∧ pos.buySide = (0, 0, 0, 0, 0))) ∧
      ((∃ row ∈ resp.Holding, row.Side = "short" ∧ pos.sellSide = row.sideFields) ∨
        ((∀ row ∈ resp.Holding, row.Side ≠ "short") ∧ pos.sellSide = (0, 0, 0, 0, 0))) := by
  rw [GetFuturePosition_decoded _ _ _ _ hresp]
  match hh : resp.Holding, hlen, htags, hdiff with
  | [], _, _, _ =>
    exact ⟨_, rfl, Or.inr ⟨by simp, rfl⟩, Or.inr ⟨by simp, rfl⟩⟩
  | [a], _, htags, _ =>
    rcases htags a (by simp) with ha | ha
    · refine ⟨fillPosition (newPosition currencyPair contractType) a SwapPositionHolding.zero,
        by simp [selectSides_cons, ha, ok_bind], Or.inl ⟨a, by simp, ha, rfl⟩,
        Or.inr ⟨?_, rfl⟩⟩
      intro row hrow
      rw [List.mem_singleton.mp hrow, ha]
      decide
    · refine ⟨fillPosition (newPosition currencyPair contractType) SwapPositionHolding.zero a,
        by simp [selectSides_cons, short_ne_long ha, ok_bind], Or.inr ⟨?_, rfl⟩,
        Or.inl ⟨a, by simp, ha, rfl⟩⟩
      intro row hrow
      rw [List.mem_singleton.mp hrow]
      exact short_ne_long ha
  | [a, b], _, htags, hdiff =>
    have hab := hdiff a b rfl
    rcases htags a (by simp) with ha | ha <;> rcases htags b (by simp) with hb | hb
    · exact absurd (ha.trans hb.symm) hab
    · exact ⟨fillPosition (newPosition currencyPair contractType) a b,
        by simp [selectSides_cons, ha, ok_bind], Or.inl ⟨a, by simp, ha, rfl⟩,
        Or.inl ⟨b, by simp, hb, rfl⟩⟩
    · exact ⟨fillPosition (newPosition currencyPair contractType) b a,
        by simp [selectSides_cons, short_ne_long ha, ok_bind], Or.inl ⟨b, by simp, hb, rfl⟩,
        Or.inl ⟨a, by simp, ha, rfl⟩⟩
    · exact absurd (ha.trans hb.symm) hab
  | _ :: _ :: _ :: _, hlen, _, _ => simp at hlen

/-- C12, as the code has it, at a short row listed before a long row. -/
theorem GetFuturePosition_sides_by_tag_witness :
    ∃ pos : FuturePosition ℚ,
      GetFuturePosition (fun _ => .unmarshalled { Holding := [demoShort, demoLong] } none)
        demoPair "BTC-USD-SWAP" = .ok ([pos], none) ∧
      pos.buySide = demoLong.sideFields ∧ pos.sellSide = demoShort.sideFields := by
  obtain ⟨pos, hrun, -, -⟩ :=
    GetFuturePosition_sides_by_tag
      (fun _ => .unmarshalled { Holding := [demoShort, demoLong] } none)
      demoPair "BTC-USD-SWAP" { Holding := [demoShort, demoLong] } rfl (by decide)
      (by decide) (by
        intro a b h
        simp only [List.cons.injEq, and_true] at h
        rw [← h.1, ← h.2]
        decide)
  have heval : GetFuturePosition
      (fun _ => Reply.unmarshalled { Holding := [demoShort, demoLong] } none)
      demoPair "BTC-USD-SWAP"
      = .ok ([fillPosition (newPosition demoPair "BTC-USD-SWAP") demoLong demoShort], none) := rfl
  rw [heval] at hrun
  cases hrun
  exact ⟨_, heval, rfl, rfl⟩

/-- C12 as stated fails: with two rows both tagged long, the second row's data
is written to the Sell fields although no row is tagged short. -/
theorem GetFuturePosition_two_long_rows :
    (∀ row ∈ [demoLong, demoLong2], row.Side = "long" ∨ row.Side = "short") ∧
    (∀ row ∈ [demoLong, demoLong2], row.Side ≠ "short") ∧
    ∃ pos : FuturePosition ℚ,
      GetFuturePosition (fun _ => .unmarshalled { Holding := [demoLong, demoLong2] } none)
        demoPair "BTC-USD-SWAP" = .ok ([pos], none) ∧
      pos.sellSide = demoLong2.sideFields ∧ pos.sellSide ≠ (0, 0, 0, 0, 0) := by
  refine ⟨by decide, by decide,
    fillPosition (newPosition demoPair "BTC-USD-SWAP") demoLong demoLong2, rfl, rfl, ?_⟩
  simp [FuturePosition.sellSide, fillPosition, demoLong2]

/-- C13. For a non-empty holding list the returned ForceLiquPrice is the
liquidation price of the holding selected as the sell side (the second row
after a long first row of a two-row list, the first row when it is not
tagged long, the zero holding otherwise); for a single row tagged long it is zero. -/
theorem GetFuturePosition_ForceLiquPrice {F : Type} [Zero F]
    (exchange : Exchange (SwapPosition F)) (currencyPair : CurrencyPair)
    (contractType : String) (resp : SwapPosition F)
    (hresp : exchange ⟨"GET", Endpoint ++ GET_POSITION contractType, ""⟩
      = .unmarshalled resp none)
    (hne : resp.Holding ≠ []) :
    ∃ (buyPosition sellPosition : SwapPositionHolding F) (pos : FuturePosition F),
      selectSides resp.Holding = .ok (buyPosition, sellPosition) ∧
      GetFuturePosition exchange currencyPair contractType = .ok ([pos], none) ∧
      pos.ForceLiquPrice = sellPosition.LiquidationPrice ∧
      (sellPosition = match resp.Holding with
        | [a, b] => if a.Side = "long" then b else a
        | a :: _ => if a.Side = "long" then SwapPositionHolding.zero else a
        | [] => SwapPositionHolding.zero) ∧
      (∀ row, resp.Holding = [row] → row.Side = "long" → pos.ForceLiquPrice = 0) := by
  rw [GetFuturePosition_decoded _ _ _ _ hresp]
  match hh : resp.Holding, hne with
  | [a], _ =>
    by_cases ha : a.Side = "long"
    · refine ⟨a, SwapPositionHolding.zero,
        fillPosition (newPosition currencyPair contractType) a SwapPositionHolding.zero,
        by simp [selectSides_cons, ha], by simp [selectSides_cons, ha, ok_bind], rfl,
        by simp [ha], ?_⟩
      intro row _ _
      rfl
    · refine ⟨SwapPositionHolding.zero, a,
        fillPosition (newPosition currencyPair contractType) SwapPositionHolding.zero a,
        by simp [selectSides_cons, ha], by simp [selectSides_cons, ha, ok_bind], rfl,
        by simp [ha], ?_⟩
      intro row hrow hlong
      simp only [List.cons.injEq, and_true] at hrow
      exact absurd (hrow ▸ hlong) ha
  | [a, b], _ =>
    by_cases ha : a.Side = "long"
    · exact ⟨a, b, fillPosition (newPosition currencyPair contractType) a b,
        by simp [selectSides_cons, ha], by simp [selectSides_cons, ha, ok_bind], rfl,
        by simp [ha], by simp⟩
    · exact ⟨b, a, fillPosition (newPosition currencyPair contractType) b a,
        by simp [selectSides_cons, ha], by simp [selectSides_cons, ha, ok_bind], rfl,
        by simp [ha], by simp⟩
  | a :: b :: c :: rest, _ =>
    by_cases ha : a.Side = "long"
    · exact ⟨a, SwapPositionHolding.zero,
        fillPosition (newPosition currencyPair contractType) a SwapPositionHolding.zero,
        by simp [selectSides_cons, ha], by simp [selectSides_cons, ha, ok_bind], rfl,
        by simp [ha], by simp⟩
    · exact ⟨SwapPositionHolding.zero, a,
        fillPosition (newPosition currencyPair contractType) SwapPositionHolding.zero a,
        by simp [selectSides_cons, ha], by simp [selectSides_cons, ha, ok_bind], rfl,
        by simp [ha], by simp⟩

/-- C13 at a single long row whose liquidation price is 3000: ForceLiquPrice is 0. -/
theorem GetFuturePosition_ForceLiquPrice_witness :
    demoLong.LiquidationPrice = 3000 ∧
    ∃ pos : FuturePosition ℚ,
      GetFuturePosition (fun _ => .unmarshalled { Holding := [demoLong] } none)
        demoPair "BTC-USD-SWAP" = .ok ([pos], none) ∧
      pos.ForceLiquPrice = 0 := by
  obtain ⟨-, -, pos, -, hrun, -, -, hzero⟩ :=
    GetFuturePosition_ForceLiquPrice
      (fun _ => .unmarshalled { Holding := [demoLong] } none)
      demoPair "BTC-USD-SWAP" { Holding := [demoLong] } rfl (by simp)
  exact ⟨rfl, pos, hrun, hzero demoLong rfl rfl⟩

/-- C14. With exactly one row, the missing side stays zero: a long row fills
the five Buy fields and leaves the five Sell fields zero, a short row fills
the five Sell fields and leaves the five Buy fields zero. -/
theorem GetFuturePosition_single_row {F : Type} [Zero F]
    (exchange : Exchange (SwapPosition F)) (currencyPair : CurrencyPair)
    (contractType : String) (row : SwapPositionHolding F)
    (hresp : exchange ⟨"GET", Endpoint ++ GET_POSITION contractType, ""⟩
      = .unmarshalled { Holding := [row] } none) :
    ∃ pos : FuturePosition F,
      GetFuturePosition exchange currencyPair contractType = .ok ([pos], none) ∧
      (row.Side = "long" →
        pos.SellAmount = 0 ∧ pos.SellAvailable = 0 ∧ pos.SellPriceAvg = 0 ∧
        pos.SellProfitReal = 0 ∧ pos.SellPriceCost = 0 ∧
        pos.BuyAmount = row.Position ∧ pos.BuyAvailable = row.AvailPosition ∧
        pos.BuyPriceAvg = row.AvgCost ∧ pos.BuyProfitReal = row.RealizedPnl ∧
        pos.BuyPriceCost = row.SettlementPrice) ∧
      (row.Side = "short" →
        pos.BuyAmount = 0 ∧ pos.BuyAvailable = 0 ∧ pos.BuyPriceAvg = 0 ∧
        pos.BuyProfitReal = 0 ∧ pos.BuyPriceCost = 0 ∧
        pos.SellAmount = row.Position ∧ pos.SellAvailable = row.AvailPosition ∧
        pos.SellPriceAvg = row.AvgCost ∧ pos.SellProfitReal = row.RealizedPnl ∧
        pos.SellPriceCost = row.SettlementPrice) := by
  rw [GetFuturePosition_decoded _ _ _ _ hresp]
  by_cases h : row.Side = "long"
  · refine ⟨fillPosition (newPosition currencyPair contractType) row SwapPositionHolding.zero,
      by simp [selectSides_cons, h, ok_bind], ?_, ?_⟩
    · intro _
      exact ⟨rfl, rfl, rfl, rfl, rfl, rfl, rfl, rfl, rfl, rfl⟩
    · intro hs
      exact absurd h (short_ne_long hs)
  · refine ⟨fillPosition (newPosition currencyPair contractType) SwapPositionHolding.zero row,
      by simp [selectSides_cons, h, ok_bind], ?_, ?_⟩
    · intro hl
      exact absurd hl h
    · intro _
      exact ⟨rfl, rfl, rfl, rfl, rfl, rfl, rfl, rfl, rfl, rfl⟩

/-- C14 at a single short row. -/
theorem GetFuturePosition_single_row_witness :
    ∃ pos : FuturePosition ℚ,
      GetFuturePosition (fun _ => .unmarshalled { Holding := [demoShort] } none)
        demoPair "BTC-USD-SWAP" = .ok ([pos], none) ∧
      pos.BuyAmount = 0 ∧ pos.BuyAvailable = 0 ∧ pos.BuyPriceAvg = 0 ∧
      pos.BuyProfitReal = 0 ∧ pos.BuyPriceCost = 0 ∧ pos.SellAmount = 2 := by
  obtain ⟨pos, hrun, -, hshort⟩ :=
    GetFuturePosition_single_row (fun _ => .unmarshalled { Holding := [demoShort] } none)
      demoPair "BTC-USD-SWAP" demoShort rfl
  obtain ⟨h1, h2, h3, h4, h5, h6, -⟩ := hshort rfl
  exact ⟨pos, hrun, h1, h2, h3, h4, h5, h6⟩

/-- C15. Every decoded position response, whatever the length of its holding
list, yields exactly one position carrying the caller's contract identifier
and pair; with an empty holding list every other field is zero. -/
theorem GetFuturePosition_one_position {F : Type} [Zero F]
    (exchange : Exchange (SwapPosition F)) (currencyPair : CurrencyPair)
    (contractType : String) (resp : SwapPosition F)
    (hresp : exchange ⟨"GET", Endpoint ++ GET_POSITION contractType, ""⟩
      = .unmarshalled resp none) :
    ∃ pos : FuturePosition F,
      GetFuturePosition exchange currencyPair contractType = .ok ([pos], none) ∧
      pos.ContractType = contractType ∧ pos.Symbol = currencyPair ∧
      (resp.Holding = [] →
        pos.ForceLiquPrice = 0 ∧ pos.BuyAmount = 0 ∧ pos.BuyAvailable = 0 ∧
        pos.BuyPriceAvg = 0 ∧ pos.BuyProfitReal = 0 ∧ pos.BuyPriceCost = 0 ∧
        pos.SellAmount = 0 ∧ pos.SellAvailable = 0 ∧ pos.SellPriceAvg = 0 ∧
        pos.SellProfitReal = 0 ∧ pos.SellPriceCost = 0) := by
  rw [GetFuturePosition_decoded _ _ _ _ hresp]
  match hh : resp.Holding with
  | [] => exact ⟨_, rfl, rfl, rfl, fun _ => ⟨rfl, rfl, rfl, rfl, rfl, rfl, rfl, rfl, rfl, rfl, rfl⟩⟩
  | a :: rest =>
    obtain ⟨sides, hsides⟩ : ∃ sides, selectSides (a :: rest) = .ok sides :=
      ⟨_, selectSides_cons a rest⟩
    simp only [hsides, ok_bind]
    exact ⟨fillPosition (newPosition currencyPair contractType) sides.1 sides.2, rfl, rfl, rfl,
      fun h => absurd h (List.cons_ne_nil _ _)⟩

/-- C15 at holding lists of three rows and of no row. -/
theorem GetFuturePosition_one_position_witness :
    (∃ pos : FuturePosition ℚ,
      GetFuturePosition
        (fun _ => .unmarshalled { Holding := [demoLong, demoShort, demoLong2] } none)
        demoPair "BTC-USD-SWAP" = .ok ([pos], none) ∧
      pos.ContractType = "BTC-USD-SWAP" ∧ pos.Symbol = demoPair) ∧
    GetFuturePosition (fun _ => .unmarshalled ({ Holding := [] } : SwapPosition ℚ) none)
      demoPair "BTC-USD-SWAP" = .ok ([newPosition demoPair "BTC-USD-SWAP"], none) := by
  obtain ⟨pos, hrun, hct, hsym, -⟩ :=
    GetFuturePosition_one_position
      (fun _ => .unmarshalled { Holding := [demoLong, demoShort, demoLong2] } none)
      demoPair "BTC-USD-SWAP" { Holding := [demoLong, demoShort, demoLong2] } rfl
  exact ⟨⟨pos, hrun, hct, hsym⟩, rfl⟩

theorem doRequestLogged_calls {α : Type} (exchange : Exchange α)
    (httpMethod uri reqBody : String) (response : α) (calls : CallLog) :
    (doRequestLogged exchange httpMethod uri reqBody response calls).2.length
      = calls.length + 1 := by
  simp [doRequestLogged]

/-- C16, as the code has it. Each unsupported operation, for every input,
panics (with the text "not support"; GetFutureOrders with the empty text)
instead of returning to its caller, and leaves the log of requests handed to
the transport as it found it. -/
theorem unsupported_operations_panic (F K T : Type) (currencyPair : CurrencyPair)
    (contract_type : String) (period size since : Int) (orderIds : List String)
    (calls : CallLog) :
    GetFee F calls = (.error "not support", calls) ∧
    GetFutureEstimatedPrice F currencyPair calls = (.error "not support", calls) ∧
    GetFutureIndex F currencyPair calls = (.error "not support", calls) ∧
    GetDeliveryTime calls = (.error "not support", calls) ∧
    GetKlineRecords K contract_type currencyPair period size since calls
      = (.error "not support", calls) ∧
    GetTrades T contract_type currencyPair since calls = (.error "not support", calls) ∧
    GetExchangeRate F calls = (.error "not support", calls) ∧
    GetFutureOrders F orderIds currencyPair contract_type calls = (.error "", calls) :=
  ⟨rfl, rfl, rfl, rfl, rfl, rfl, rfl, rfl⟩

/-- C16 as stated fails: the estimated-price operation does not return an
error to its caller, it panics. -/
theorem GetFutureEstimatedPrice_returns_no_error :
    (GetFutureEstimatedPrice ℚ demoPair []).1 = .error "not support" ∧
    ¬ ∃ (value : ℚ) (err : Error),
      (GetFutureEstimatedPrice ℚ demoPair []).1 = .ok (value, some err) := by
  refine ⟨rfl, ?_⟩
  rintro ⟨value, err, h⟩
  simp [GetFutureEstimatedPrice] at h

/-- C17, as the code has it. A decoded ticker whose timestamp fails to parse
still yields a Ticker; its Date is the millisecond value of the zero time
after the wrap-around of `UnixNano`, 18446737278344972745. -/
theorem GetFutureTicker_parse_failure {F : Type} [Zero F]
    (exchange : Exchange (BaseTickerInfo F)) (rfc3339 : String → Option Time)
    (currencyPair : CurrencyPair) (contractType : String) (resp : BaseTickerInfo F)
    (hresp : exchange ⟨"GET", Endpoint ++ GET_TICKER contractType, ""⟩
      = .unmarshalled resp none)
    (hparse : rfc3339 resp.Timestamp = none) :
    GetFutureTicker exchange rfc3339 currencyPair contractType
      = (some { Pair := currencyPair, Last := resp.Last, Low := resp.Low24h,
                High := resp.High24h, Vol := resp.Volume24h,
                Date := 18446737278344972745 }, none) := by
  have hdate : toUint64 (Int.tdiv Time.zero.UnixNano Millisecond) = 18446737278344972745 := by
    decide
  simp only [GetFutureTicker, doRequest, hresp, time_Parse, hparse, hdate]

/-- C17, as the code has it, at a ticker whose timestamp is the text n/a. -/
theorem GetFutureTicker_parse_failure_witness :
    GetFutureTicker (fun _ => .unmarshalled demoTicker none) demoRfc3339 demoPair "BTC-USD-SWAP"
      = (some { Pair := demoPair, Last := 3800, Low := 3700, High := 3900, Vol := 120000,
                Date := 18446737278344972745 }, none) :=
  GetFutureTicker_parse_failure (fun _ => .unmarshalled demoTicker none) demoRfc3339 demoPair
    "BTC-USD-SWAP" demoTicker rfl (by decide)

/-- C17 as stated fails: at a timestamp that does not parse, the Date is not 0. -/
theorem GetFutureTicker_zero_time_Date :
    demoRfc3339 demoTicker.Timestamp = none ∧
    Time.zero.UnixNano = -6795364578871345152 ∧
    (GetFutureTicker (fun _ => .unmarshalled demoTicker none) demoRfc3339 demoPair
      "BTC-USD-SWAP").1.map (fun t => t.Date) = some 18446737278344972745 ∧
    (GetFutureTicker (fun _ => .unmarshalled demoTicker none) demoRfc3339 demoPair
      "BTC-USD-SWAP").1.map (fun t => t.Date) ≠ some 0 := by
  have hrun : (GetFutureTicker (fun _ => Reply.unmarshalled demoTicker none) demoRfc3339 demoPair
      "BTC-USD-SWAP").1.map (fun t => t.Date) = some 18446737278344972745 := by
    have hparse : demoRfc3339 demoTicker.Timestamp = none := by decide
    have hdate : toUint64 (Int.tdiv Time.zero.UnixNano Millisecond) = 18446737278344972745 := by
      decide
    simp only [GetFutureTicker, doRequest, time_Parse, hparse, hdate, Option.map_some']
  refine ⟨by decide, by decide, hrun, ?_⟩
  rw [hrun]
  decide

/-- C18. A decoded place-order response with an empty error_message returns
its order_id unchanged with a nil error, whatever the request was. -/
theorem PlaceFutureOrder_order_id (exchange : Exchange PlaceOrderResponse)
    (BuildRequestBody : PlaceOrderInfo → String) (uuid : String)
    (currencyPair : CurrencyPair) (contractType price amount : String)
    (openType matchPrice leverRate : Int) (resp : PlaceOrderResponse)
    (hresp : exchange ⟨"POST", Endpoint ++ PLACE_ORDER, BuildRequestBody
      { ClientOid := String.mk (removeHyphens 32 uuid.data), Price := price, MatchPrice := "0",
        Type_ := toString openType, Size := amount, InstrumentId := contractType }⟩
        = .unmarshalled resp none)
    (hmsg : resp.ErrorMessage = "") :
    PlaceFutureOrder exchange BuildRequestBody uuid currencyPair contractType price amount
        openType matchPrice leverRate
      = (resp.OrderID, none) := by
  simp [PlaceFutureOrder, doRequest, hresp, hmsg]

/-- C18 at an accepted order. -/
theorem PlaceFutureOrder_order_id_witness :
    PlaceFutureOrder
      (fun _ => .unmarshalled
        { ErrorCode := "0", ErrorMessage := "", Result := true,
          OrderID := "6a-1-7d-4e-0", ClientOid := "0f5b1c2e7d3a4b6c9e8f1a2b3c4d5e6f" } none)
      (fun _ => "") "0f5b1c2e-7d3a-4b6c-9e8f-1a2b3c4d5e6f" demoPair "BTC-USD-SWAP" "3800" "10" 1 0 10
      = ("6a-1-7d-4e-0", none) :=
  PlaceFutureOrder_order_id _ (fun _ => "") "0f5b1c2e-7d3a-4b6c-9e8f-1a2b3c4d5e6f" demoPair
    "BTC-USD-SWAP" "3800" "10" 1 0 10
    { ErrorCode := "0", ErrorMessage := "", Result := true,
      OrderID := "6a-1-7d-4e-0", ClientOid := "0f5b1c2e7d3a4b6c9e8f1a2b3c4d5e6f" } rfl rfl

/-- C19. The contract value is 100 for BTC_USD, 10 for LTC_USD, ETH_USD,
ETC_USD and BCH_USD, and -1 with an error for every other pair; the error is
nil exactly for those five pairs. -/
theorem GetContractValue_table {F : Type} (float64 : Int → F) :
    GetContractValue float64 BTC_USD = (float64 100, none) ∧
    GetContractValue float64 LTC_USD = (float64 10, none) ∧
    GetContractValue float64 ETH_USD = (float64 10, none) ∧
    GetContractValue float64 ETC_USD = (float64 10, none) ∧
    GetContractValue float64 BCH_USD = (float64 10, none) ∧
    (∀ currencyPair, currencyPair ≠ BTC_USD → currencyPair ≠ LTC_USD →
      currencyPair ≠ ETH_USD → currencyPair ≠ ETC_USD → currencyPair ≠ BCH_USD →
      GetContractValue float64 currencyPair = (float64 (-1), some "error")) ∧
    (∀ currencyPair, (GetContractValue float64 currencyPair).2 = none ↔
      (currencyPair = BTC_USD ∨ currencyPair = LTC_USD ∨ currencyPair = ETH_USD ∨
        currencyPair = ETC_USD ∨ currencyPair = BCH_USD)) := by
  refine ⟨rfl, rfl, rfl, rfl, rfl, ?_, ?_⟩
  · intro currencyPair h1 h2 h3 h4 h5
    simp [GetContractValue, h1, h2, h3, h4, h5]
  · intro currencyPair
    by_cases h1 : currencyPair = BTC_USD
    · simp [GetContractValue, h1]
    · by_cases h2 : currencyPair = LTC_USD ∨ currencyPair = ETH_USD ∨ currencyPair = ETC_USD
          ∨ currencyPair = BCH_USD
      · simp only [GetContractValue, if_neg h1, if_pos h2, true_iff]
        exact Or.inr h2
      · simp only [GetContractValue, if_neg h1, if_neg h2]
        constructor
        · intro h
          cases h
        · rintro (h | h)
          · exact absurd h h1
          · exact absurd h h2

/-- C19 at a pair outside the table, EOS against USD. -/
theorem GetContractValue_table_witness :
    GetContractValue (fun n : Int => (n : ℚ)) ⟨EOS, USD⟩ = (-1, some "error") := by
  have h := (GetContractValue_table (fun n : Int => (n : ℚ))).2.2.2.2.2.1 ⟨EOS, USD⟩
    (by decide) (by decide) (by decide) (by decide) (by decide)
  simpa using h

/-- C20. For a decoded single-order response with an empty message and
embedded record r, GetFutureOrder returns parseOrder r stamped with the
caller's pair and contract identifier, which is the order the loop of
GetUnfinishFutureOrders builds for r, and what GetUnfinishFutureOrders
returns when its first page holds r alone. -/
theorem GetFutureOrder_agrees_with_parseOrder {F : Type} [Zero F]
    (exchange : Exchange (OrderResponse F)) (rfc3339 : String → Option Time)
    (orderId : String) (currencyPair : CurrencyPair) (contractType : String)
    (resp : OrderResponse F)
    (hresp : exchange ⟨"GET", Endpoint ++ GET_ORDER contractType orderId, ""⟩
      = .unmarshalled resp none)
    (hmsg : resp.Message = "") :
    GetFutureOrder exchange rfc3339 orderId currencyPair contractType
      = (some { parseOrder rfc3339 resp.toBaseOrderInfo with
                Currency := currencyPair, ContractName := contractType }, none) ∧
    orderLoop rfc3339 currencyPair contractType [resp.toBaseOrderInfo] []
      = [{ parseOrder rfc3339 resp.toBaseOrderInfo with
           Currency := currencyPair, ContractName := contractType }] ∧
    ∀ (orders : Exchange (SwapOrdersInfo F)) (statusCode : TradeStatus → Int) (e : Error),
      orders ⟨"GET", Endpoint ++
          GET_UNFINISHED_ORDERS contractType (statusCode ORDER_UNFINISH) 1 100, ""⟩
        = .unmarshalled { Code := 0, Message := "", OrderInfo := [resp.toBaseOrderInfo] } none →
      orders ⟨"GET", Endpoint ++
          GET_UNFINISHED_ORDERS contractType (statusCode ORDER_PART_FINISH) 1 100, ""⟩
        = .transportError e →
      (GetUnfinishFutureOrders orders rfc3339 statusCode currencyPair contractType).1.map some
        = [(GetFutureOrder exchange rfc3339 orderId currencyPair contractType).1] := by
  have hrun : GetFutureOrder exchange rfc3339 orderId currencyPair contractType
      = (some { parseOrder rfc3339 resp.toBaseOrderInfo with
                Currency := currencyPair, ContractName := contractType }, none) := by
    simp [GetFutureOrder, doRequest, hresp, hmsg, parseOrder]
  refine ⟨hrun, by simp [orderLoop], ?_⟩
  intro orders statusCode e h1 h2
  rw [hrun, GetUnfinishFutureOrders_second_transport_error orders rfc3339 statusCode
    currencyPair contractType _ e h1 rfl h2]
  rfl

/-- C20 at a concrete order record. -/
theorem GetFutureOrder_agrees_with_parseOrder_witness :
    GetFutureOrder (fun _ => .unmarshalled demoOrderResponse none) demoRfc3339 "6a-1" demoPair
        "BTC-USD-SWAP"
      = (some { OrderID2 := "6a-1", Amount := 10, Price := 3800, DealAmount := 4,
                AvgPrice := 3799, OType := 1, Status := ORDER_PART_FINISH, Fee := -0.01,
                OrderTime := 1547024523000, Currency := demoPair,
                ContractName := "BTC-USD-SWAP" }, none) := by
  have h := (GetFutureOrder_agrees_with_parseOrder
    (fun _ => .unmarshalled demoOrderResponse none) demoRfc3339 "6a-1" demoPair "BTC-USD-SWAP"
    demoOrderResponse rfl rfl).1
  rw [h]
  have hparse : demoRfc3339 demoOrderResponse.Timestamp = some ⟨63682621323, 0⟩ := by decide
  have htime : Int.tdiv (Time.UnixNano ⟨63682621323, 0⟩) Millisecond = 1547024523000 := by
    decide
  simp only [parseOrder, time_Parse, hparse, htime]
  rfl

end OKExSwap
